import Mathlib

/-!
Verification of the natural-language specification of the `radiel-health/Data`
repository (CFD post-processing scripts for lid-driven cavity simulations)
against a shallow embedding of its Python source code.

Numeric CSV cell values and numpy float64 arrays are modelled as rationals
(`ℚ`); numpy int32 arrays are modelled as `List Int` together with an explicit
wrap-around function `toInt32`.  Fallible code paths (file reads, missing
columns) are modelled with `Option`.

Embedded source files:
* `LidDrivenCavity/misc_scripts/csv_to_xdmf_converter.py`
  (`clean_column_names`, `convert_csv_to_xdmf`, `create_xdmf_file`,
  `save_to_hdf5`, `merge_surfaces_to_xdmf`)
* `wall_shear_plotter_line.py` (`calculate_surface_coordinate`)
* `benchmark.py` (`normalize_cfd_data`, `interpolate_to_ghia_points`
  via `np.interp`, `compare_with_benchmark`, the Ghia Re=100 table)
* `misc_scripts/plotta.py` (`extract_residuals_from_log` post-filtering and
  the convergence classification of `plot_convergence`)
* `analyze_results.py` (`CFDResultsAnalyzer.analyze_vortex_center`)
-/

/-- Model of a 1-D numpy array as used by the converter: the only dtypes that
occur are `int32` (`wall_id`, `wall_type`, `cell_id`) and `float64` (all other
scalar fields). -/
inductive NArray where
  | ints (l : List Int) : NArray
  | floats (l : List ℚ) : NArray
deriving DecidableEq

/-- `dtype == np.int32` test used by `merge_surfaces_to_xdmf` when padding. -/
def NArray.isInt32 : NArray → Bool
  | .ints _ => true
  | .floats _ => false

/-- `dtype == np.float64` test used by `create_xdmf_file`. -/
def NArray.isFloat64 : NArray → Bool
  | .ints _ => false
  | .floats _ => true

def NArray.length : NArray → Nat
  | .ints l => l.length
  | .floats l => l.length

/-- View of the array entries as rationals (int32 entries are cast). -/
def NArray.toRatList : NArray → List ℚ
  | .ints l => l.map (fun z => (z : ℚ))
  | .floats l => l

/-- `np.concatenate` on two 1-D arrays; mixed dtypes promote to float64. -/
def NArray.concat : NArray → NArray → NArray
  | .ints a, .ints b => .ints (a ++ b)
  | .floats a, .floats b => .floats (a ++ b)
  | a, b => .floats (a.toRatList ++ b.toRatList)

def NArray.take (n : Nat) : NArray → NArray
  | .ints l => .ints (l.take n)
  | .floats l => .floats (l.take n)

def NArray.drop (n : Nat) : NArray → NArray
  | .ints l => .ints (l.drop n)
  | .floats l => .floats (l.drop n)

/-- `np.zeros(n, dtype=np.int32)` / `np.zeros(n, dtype=np.float64)`. -/
def npZeros (int32 : Bool) (n : Nat) : NArray :=
  if int32 then .ints (List.replicate n 0) else .floats (List.replicate n 0)

/-- int32 wrap-around for a Python integer stored into an int32 numpy array. -/
def toInt32 (z : Int) : Int := (z + 2 ^ 31) % 2 ^ 32 - 2 ^ 31

/-- Truncation toward zero, the C-cast used by `.astype(np.int32)`. -/
def ratTrunc (q : ℚ) : Int := if 0 ≤ q then q.floor else q.ceil

/-- `.astype(np.int32)` on a float64 value. -/
def ratToInt32 (q : ℚ) : Int := toInt32 (ratTrunc q)

/-- A pandas dataframe of numeric columns: `nrows = len(df)` and the ordered
list of (column name, column values).  Column names may repeat, as they can in
pandas. -/
structure DataFrame where
  nrows : Nat
  cols : List (String × List ℚ)
deriving DecidableEq

/-- `df[name]` when the result is a single column: the first column with that
name. -/
def DataFrame.col? (df : DataFrame) (name : String) : Option (List ℚ) :=
  (df.cols.find? (fun c => c.1 == name)).map Prod.snd

/-- Every column holds exactly `nrows` values (true of any dataframe produced
by `pd.read_csv`). -/
def DataFrame.WFlen (df : DataFrame) : Prop :=
  ∀ c ∈ df.cols, c.2.length = df.nrows

/-- `df[name] = vals` column assignment: replaces the columns labelled `name`,
or appends a new column when the label is absent. -/
def DataFrame.setCol (df : DataFrame) (name : String) (vals : List ℚ) : DataFrame :=
  if (df.cols.map Prod.fst).contains name then
    ⟨df.nrows, df.cols.map (fun c => if c.1 = name then (c.1, vals) else c)⟩
  else
    ⟨df.nrows, df.cols ++ [(name, vals)]⟩

/-! ### csv_to_xdmf_converter.py -/

/-- `pandas.Series.str.strip()` on a column name: remove leading and trailing
whitespace. -/
def stripName (s : String) : String :=
  String.mk (((s.data.dropWhile Char.isWhitespace).reverse.dropWhile Char.isWhitespace).reverse)

/-- The fixed Fluent column-name mapping of `clean_column_names`. -/
def column_mapping : List (String × String) :=
  [("x-coordinate", "x"),
   ("y-coordinate", "y"),
   ("x-velocity", "velocity_x"),
   ("y-velocity", "velocity_y"),
   ("velocity-magnitude", "velocity_magnitude"),
   ("x-wall-shear", "wall_shear_x"),
   ("y-wall-shear", "wall_shear_y"),
   ("wall-shear", "wall_shear_magnitude"),
   ("pressure", "pressure"),
   ("cellnumber", "cell_id")]

/-- `df.rename(columns=column_mapping)` applied to one name. -/
def renameColumn (s : String) : String :=
  match column_mapping.find? (fun p => p.1 == s) with
  | some p => p.2
  | none => s

/-- The `cols_to_keep` loop of `clean_column_names`: first occurrence of each
name, in order. -/
def dedupNames (names : List String) : List String :=
  names.foldl (fun acc c => if acc.contains c then acc else acc ++ [c]) []

/-- `df[cols_to_keep]`: pandas label-based selection with a list of labels
returns, for each label in the list, every column carrying that label. -/
def selectColumns (cols : List (String × List ℚ)) (keep : List String) :
    List (String × List ℚ) :=
  keep.flatMap (fun k => cols.filter (fun c => c.1 == k))

/-- `clean_column_names(df)`: strip whitespace from the names, apply the
Fluent mapping, then select the deduplicated name list. -/
def clean_column_names (df : DataFrame) : DataFrame :=
  let renamed := df.cols.map (fun c => (renameColumn (stripName c.1), c.2))
  ⟨df.nrows, selectColumns renamed (dedupNames (renamed.map Prod.fst))⟩

/-- The `scalar_fields` list of `convert_csv_to_xdmf`. -/
def scalar_fields : List String :=
  ["velocity_x", "velocity_y", "velocity_magnitude",
   "wall_shear_x", "wall_shear_y", "wall_shear_magnitude",
   "pressure"]

/-- Result of a successful `convert_csv_to_xdmf`: the Nx3 point array, the
ordered data dictionary and the number of points. -/
abbrev ConvResult := List (ℚ × ℚ × ℚ) × List (String × NArray) × Nat

/-- `convert_csv_to_xdmf(csv_file_path, wall_type, wall_id)` after the CSV has
been read into `df`; `none` models the `(None, None, 0)` error return when the
coordinate columns are missing after cleaning. -/
def convert_csv_to_xdmf (df : DataFrame) (wall_type : String) (wall_id : Int) :
    Option ConvResult :=
  let dfc := clean_column_names df
  match dfc.col? "x", dfc.col? "y" with
  | some xs, some ys =>
    let num_points := dfc.nrows
    let points := (List.range num_points).map (fun i => (xs.getD i 0, ys.getD i 0, (0 : ℚ)))
    let base : List (String × NArray) :=
      [("wall_id", .ints (List.replicate num_points (toInt32 wall_id))),
       ("wall_type", .ints (List.replicate num_points (if wall_type = "moving" then 1 else 0)))]
    let flds := scalar_fields.filterMap
      (fun f => (dfc.col? f).map (fun c => (f, NArray.floats c)))
    let cid : List (String × NArray) :=
      match dfc.col? "cell_id" with
      | some c => [("cell_id", .ints (c.map ratToInt32))]
      | none => []
    some (points, base ++ flds ++ cid, num_points)
  | _, _ => none

/-- An XML element as built with `xml.etree.ElementTree`. -/
structure XmlElem where
  tag : String
  attrList : List (String × String)
  text : Option String
  children : List XmlElem

/-- Attribute lookup on an XML element. -/
def XmlElem.attr (e : XmlElem) (k : String) : Option String :=
  (e.attrList.find? (fun p => p.1 == k)).map Prod.snd

/-- The `Attribute` element (with its nested `DataItem`) that
`create_xdmf_file` emits for one entry of the data dictionary. -/
def xdmfAttrElem (h5_filename : String) (num_points : Nat)
    (fa : String × NArray) : XmlElem :=
  ⟨"Attribute",
   [("Name", fa.1), ("AttributeType", "Scalar"), ("Center", "Node")], none,
   [⟨"DataItem",
     [("Dimensions", toString num_points),
      ("NumberType", if fa.2.isFloat64 then "Float" else "Int"),
      ("Precision", if fa.2.isFloat64 then "8" else "4"),
      ("Format", "HDF")],
     some (h5_filename ++ ":/" ++ fa.1), []⟩]⟩

/-- The `Geometry` `DataItem` referencing the coordinates dataset. -/
def xdmfGeomItem (h5_filename : String) (num_points : Nat) : XmlElem :=
  ⟨"DataItem",
   [("Dimensions", toString num_points ++ " 3"), ("NumberType", "Float"),
    ("Precision", "8"), ("Format", "HDF")],
   some (h5_filename ++ ":/coordinates"), []⟩

/-- `create_xdmf_file(output_path, h5_filename, points, data_dict, num_points)`:
the XML tree written to the `.xdmf` file. -/
def create_xdmf_file (h5_filename : String) (_points : List (ℚ × ℚ × ℚ))
    (data_dict : List (String × NArray)) (num_points : Nat) : XmlElem :=
  let topology : XmlElem :=
    ⟨"Topology", [("TopologyType", "Polyvertex"), ("NodesPerElement", toString num_points)],
     none, []⟩
  let geometry : XmlElem :=
    ⟨"Geometry", [("GeometryType", "XYZ")], none, [xdmfGeomItem h5_filename num_points]⟩
  let attrElems := data_dict.map (xdmfAttrElem h5_filename num_points)
  let grid : XmlElem :=
    ⟨"Grid", [("Name", "Wall_Surface"), ("GridType", "Uniform")], none,
     topology :: geometry :: attrElems⟩
  ⟨"Xdmf", [("Version", "3.0")], none, [⟨"Domain", [], none, [grid]⟩]⟩

/-- A dataset stored in the HDF5 container. -/
inductive H5Data where
  | coords (pts : List (ℚ × ℚ × ℚ)) : H5Data
  | arr (a : NArray) : H5Data
deriving DecidableEq

/-- `save_to_hdf5(h5_path, points, data_dict)`: the named datasets created in
the HDF5 file, in creation order. -/
def save_to_hdf5 (points : List (ℚ × ℚ × ℚ)) (data_dict : List (String × NArray)) :
    List (String × H5Data) :=
  ("coordinates", .coords points) :: data_dict.map (fun fa => (fa.1, .arr fa.2))

/-- State of one expected CSV file inside a Reynolds folder. -/
inductive FileState where
  | missing : FileState
  | unreadable : FileState
  | csv (df : DataFrame) : FileState

/-- The two wall CSV files of a Reynolds folder. -/
structure WallFolder where
  moving : FileState
  stat : FileState

/-- Reading + converting one wall file: a read failure makes
`convert_csv_to_xdmf` return its error value. -/
def convertFile : FileState → String → Int → Option ConvResult
  | .csv df, wall_type, wall_id => convert_csv_to_xdmf df wall_type wall_id
  | _, _, _ => none

/-- Content written to one output file by `merge_surfaces_to_xdmf`. -/
inductive WriteContent where
  | h5 (datasets : List (String × H5Data)) : WriteContent
  | xdmf (doc : XmlElem) : WriteContent

/-- The combined-data loop of `merge_surfaces_to_xdmf`: union of the field
names, concatenating values and padding an absent side with zeros of the
present side's dtype. -/
def combineFields (moving_data stat_data : List (String × NArray))
    (moving_count stat_count : Nat) : List (String × NArray) :=
  let all_fields := (moving_data.map Prod.fst) ++
    ((stat_data.map Prod.fst).filter (fun f => !(moving_data.map Prod.fst).contains f))
  all_fields.filterMap (fun f =>
    match List.lookup f moving_data, List.lookup f stat_data with
    | some a, some b => some (f, a.concat b)
    | some a, none => some (f, a.concat (npZeros a.isInt32 stat_count))
    | none, some b => some (f, (npZeros b.isInt32 moving_count).concat b)
    | none, none => none)

/-- `merge_surfaces_to_xdmf(re_folder_path, re_number)`: returns the boolean
result of the function together with the ordered list of files it writes. -/
def merge_surfaces_to_xdmf (folder : WallFolder) (re_number : String) :
    Bool × List (String × WriteContent) :=
  match folder.moving, folder.stat with
  | .missing, _ => (false, [])
  | _, .missing => (false, [])
  | mfs, sfs =>
    match convertFile mfs "moving" 1, convertFile sfs "stationary" 0 with
    | some (moving_points, moving_data, moving_count),
      some (stat_points, stat_data, stat_count) =>
      let moving_h5 := "Re" ++ re_number ++ "_moving_wall.h5"
      let moving_xdmf := "Re" ++ re_number ++ "_moving_wall.xdmf"
      let stat_h5 := "Re" ++ re_number ++ "_stat_walls.h5"
      let stat_xdmf := "Re" ++ re_number ++ "_stat_walls.xdmf"
      let combined_points := moving_points ++ stat_points
      let combined_data := combineFields moving_data stat_data moving_count stat_count
      let combined_h5 := "Re" ++ re_number ++ "_combined.h5"
      let combined_xdmf := "Re" ++ re_number ++ "_combined.xdmf"
      (true,
       [(moving_h5, .h5 (save_to_hdf5 moving_points moving_data)),
        (moving_xdmf, .xdmf (create_xdmf_file moving_h5 moving_points moving_data moving_count)),
        (stat_h5, .h5 (save_to_hdf5 stat_points stat_data)),
        (stat_xdmf, .xdmf (create_xdmf_file stat_h5 stat_points stat_data stat_count)),
        (combined_h5, .h5 (save_to_hdf5 combined_points combined_data)),
        (combined_xdmf, .xdmf (create_xdmf_file combined_h5 combined_points combined_data
          (moving_count + stat_count)))])
    | _, _ => (false, [])

/-! ### wall_shear_plotter_line.py -/

/-- `calculate_surface_coordinate(x, y, wall_type)`: the perimeter arc-length
coordinate of a wall point, dispatching on the wall label; `none` models the
`UnboundLocalError` raised for an unknown label. -/
def calculate_surface_coordinate (x y : ℚ) (wall_type : String) : Option ℚ :=
  if wall_type = "moving_wall" then some x
  else if wall_type = "right" then some (1 + (1 - y))
  else if wall_type = "bottom" then some (2 + (1 - x))
  else if wall_type = "left" then some (3 + y)
  else none

/-! ### benchmark.py -/

/-- `series.min()` on a numeric column (0 is never used: callers pass
non-empty columns). -/
def colMin (l : List ℚ) : ℚ := l.min?.getD 0

/-- `series.max()` on a numeric column. -/
def colMax (l : List ℚ) : ℚ := l.max?.getD 0

/-- `series.mean()` / `np.mean`. -/
def meanQ (l : List ℚ) : ℚ := l.sum / l.length

/-- The kinematic viscosity constant `nu = 1.004e-6` of `normalize_cfd_data`. -/
def nuWater : ℚ := 1004 / 1000000000

/-- `normalize_cfd_data(v_center, h_center, Re)`: adds the `y_norm`, `u_norm`
columns to the vertical centerline and `x_norm`, `v_norm` to the horizontal
one; `none` models the `KeyError` raised when a needed column is absent. -/
def normalize_cfd_data (v_center h_center : DataFrame) (Re : ℚ) :
    Option (DataFrame × DataFrame) :=
  let L : ℚ := 1
  let U_lid := Re * nuWater / L
  match v_center.col? "y-coordinate", v_center.col? "x-velocity",
        h_center.col? "x-coordinate", h_center.col? "y-velocity" with
  | some ys, some us, some xs, some vs =>
    let y_min := colMin ys
    let y_max := colMax ys
    let x_min := colMin xs
    let x_max := colMax xs
    let v1 := (v_center.setCol "y_norm"
        (ys.map (fun c => (c - y_min) / (y_max - y_min)))).setCol "u_norm"
        (us.map (fun u => u / U_lid))
    let h1 := (h_center.setCol "x_norm"
        (xs.map (fun c => (c - x_min) / (x_max - x_min)))).setCol "v_norm"
        (vs.map (fun w => w / U_lid))
    some (v1, h1)
  | _, _, _, _ => none

/-- `np.interp(x, xp, fp)` on a list of `(xp, fp)` pairs with increasing `xp`:
clamp to the end values outside the sampled range, linear interpolation
inside. -/
def interp1 (x : ℚ) : List (ℚ × ℚ) → ℚ
  | [] => 0
  | [p] => p.2
  | p :: q :: rest =>
    if x ≤ p.1 then p.2
    else if x ≤ q.1 then p.2 + (q.2 - p.2) * (x - p.1) / (q.1 - p.1)
    else interp1 x (q :: rest)

/-- `df.sort_values(coord_col)` restricted to the two columns the comparison
uses: sort the (coordinate, velocity) pairs by coordinate. -/
def sortByCoord (l : List (ℚ × ℚ)) : List (ℚ × ℚ) :=
  l.mergeSort (fun a b => decide (a.1 ≤ b.1))

/-- One Ghia et al. (1982) benchmark table. -/
structure GhiaData where
  y : List ℚ
  u : List ℚ
  x : List ℚ
  v : List ℚ

/-- The error metrics returned by `compare_with_benchmark`; the L2 errors are
recorded by their squares (`U_L2sq = U_L2_error ** 2`), which is the exact
rational value under the square root the code takes. -/
structure BenchResult where
  U_max : ℚ
  U_mean : ℚ
  U_L2sq : ℚ
  V_max : ℚ
  V_mean : ℚ
  V_L2sq : ℚ

/-- `np.abs(cfd - ghia)` elementwise. -/
def absErrList (cfd ghia : List ℚ) : List ℚ :=
  List.zipWith (fun a b => |a - b|) cfd ghia

/-- `np.max` over an error array. -/
def colMaxD (l : List ℚ) : ℚ := l.max?.getD 0

/-- `compare_with_benchmark(Re, ghia_data, output_dir)` after the two
centerline CSV files have been loaded (plotting omitted): normalize, sort by
the normalized coordinate, interpolate to the Ghia points, and return the
max / mean / L2 error metrics. -/
def compare_with_benchmark (v_center h_center : DataFrame) (Re : ℚ) (g : GhiaData) :
    Option BenchResult :=
  match normalize_cfd_data v_center h_center Re with
  | none => none
  | some (v1, h1) =>
    match v1.col? "y_norm", v1.col? "u_norm", h1.col? "x_norm", h1.col? "v_norm" with
    | some yn, some un, some xn, some vn =>
      let vsorted := sortByCoord (yn.zip un)
      let hsorted := sortByCoord (xn.zip vn)
      let cfd_u := g.y.map (fun c => interp1 c vsorted)
      let cfd_v := g.x.map (fun c => interp1 c hsorted)
      let u_error := absErrList cfd_u g.u
      let v_error := absErrList cfd_v g.v
      some ⟨colMaxD u_error, meanQ u_error, meanQ (u_error.map (fun e => e ^ 2)),
            colMaxD v_error, meanQ v_error, meanQ (v_error.map (fun e => e ^ 2))⟩
    | _, _, _, _ => none

/-- The `GHIA_RE100` table of benchmark.py. -/
def GHIA_RE100 : GhiaData :=
  { y := [0, 547/10000, 625/10000, 703/10000, 1016/10000, 1719/10000, 2813/10000,
          4531/10000, 5000/10000, 6172/10000, 7344/10000, 8516/10000, 9531/10000,
          9609/10000, 9688/10000, 9766/10000, 1],
    u := [0, -3717/100000, -4192/100000, -4775/100000, -6434/100000, -10150/100000,
          -15662/100000, -21090/100000, -20581/100000, -13641/100000, 332/100000,
          23151/100000, 68717/100000, 73722/100000, 78871/100000, 84123/100000, 1],
    x := [0, 625/10000, 703/10000, 781/10000, 938/10000, 1563/10000, 2266/10000,
          2344/10000, 5000/10000, 8047/10000, 8594/10000, 9063/10000, 9453/10000,
          9531/10000, 9609/10000, 9688/10000, 1],
    v := [0, 9233/100000, 10091/100000, 10890/100000, 12317/100000, 16077/100000,
          17507/100000, 17527/100000, 5454/100000, -24533/100000, -22445/100000,
          -16914/100000, -10313/100000, -8864/100000, -7391/100000, -5906/100000, 0] }

/-! ### misc_scripts/plotta.py -/

/-- One parsed residual-history row (the iteration number plays no role in the
classification). -/
structure ResRow where
  cont : ℚ
  xv : ℚ
  yv : ℚ
deriving DecidableEq

/-- The filtering step of `extract_residuals_from_log` applied to the rows
whose numbers were already parsed from the log: keep a row only when some
residual is positive, and replace non-positive residuals by `1e-15`. -/
def extract_residuals (rows : List (ℚ × ℚ × ℚ)) : List ResRow :=
  (rows.filter (fun r => decide (0 < r.1) || decide (0 < r.2.1) || decide (0 < r.2.2))).map
    (fun r => ⟨if 0 < r.1 then r.1 else 1 / 10 ^ 15,
               if 0 < r.2.1 then r.2.1 else 1 / 10 ^ 15,
               if 0 < r.2.2 then r.2.2 else 1 / 10 ^ 15⟩)

/-- `series.iloc[-k:]`: the last `k` entries. -/
def lastK (k : Nat) (l : List ℚ) : List ℚ := l.drop (l.length - k)

/-- `series.std()` squared: the sample variance with `ddof = 1`, the exact
rational value under pandas' square root. -/
def sampleVar (l : List ℚ) : ℚ :=
  ((l.map (fun x => (x - meanQ l) ^ 2)).sum) / ((l.length : ℚ) - 1)

/-- The plateau test `series.std() / series.mean() < 0.1` of
`plot_convergence`, written without the square root: on data with a positive
mean it holds exactly when the sample variance is below `(mean/10)^2`
(see the C5 theorem, which proves this form equivalent to the
square-root form). -/
def stdMeanBelowTenth (l : List ℚ) : Bool :=
  decide (0 < meanQ l) && decide (sampleVar l < (meanQ l / 10) ^ 2)

/-- `series.iloc[-1]` on a non-empty column. -/
def lastVal (l : List ℚ) : ℚ := l.getLastD 0

/-- The convergence classification returned by `plot_convergence`
(plot generation omitted). -/
def plot_convergence_status (h : List ResRow) : String :=
  if h.length ≤ 1 then "FALSE_CONVERGENCE"
  else
    let conts := h.map ResRow.cont
    let xvs := h.map ResRow.xv
    let yvs := h.map ResRow.yv
    if 100 ≤ h.length then
      let is_plateaued := stdMeanBelowTenth (lastK 100 conts) &&
        stdMeanBelowTenth (lastK 100 xvs) && stdMeanBelowTenth (lastK 100 yvs)
      let met_strict := decide (colMin conts < 1 / 10 ^ 6) &&
        decide (colMin xvs < 1 / 10 ^ 9) && decide (colMin yvs < 1 / 10 ^ 9)
      let met_practical := decide (lastVal conts < 2 / 10 ^ 5) &&
        decide (lastVal xvs < 3 / 10 ^ 8) && decide (lastVal yvs < 3 / 10 ^ 8) &&
        is_plateaued
      if met_strict then "CONVERGED"
      else if met_practical then "PRACTICALLY_CONVERGED"
      else if is_plateaued then "PLATEAUED"
      else "NOT_CONVERGED"
    else "UNKNOWN"

/-- The claim-side plateau condition, with the square root explicit:
`std / mean < 0.1` where `std` is the sample standard deviation. -/
def StdOverMeanLtTenth (l : List ℚ) : Prop :=
  Real.sqrt ((sampleVar l : ℚ) : ℝ) / ((meanQ l : ℚ) : ℝ) < 1 / 10

/-! ### analyze_results.py -/

/-- `np.sign` on a rational. -/
def npSign (q : ℚ) : Int :=
  if q < 0 then -1 else if q = 0 then 0 else 1

/-- `np.where(np.diff(np.sign(u)))[0][0]`: the first index `i` with
`sign u[i] ≠ sign u[i+1]`, if any. -/
def firstSignChange : List ℚ → Option Nat
  | a :: b :: rest =>
    if npSign a ≠ npSign b then some 0
    else (firstSignChange (b :: rest)).map (fun i => i + 1)
  | _ => none

/-- The zero-crossing midpoint `(c[i] + c[i+1]) / 2` at the first sign change
of `vals`, as computed for each coordinate by `analyze_vortex_center`. -/
def vortexCoordinate (coords vals : List ℚ) : Option ℚ :=
  (firstSignChange vals).map (fun i => (coords.getD i 0 + coords.getD (i + 1) 0) / 2)

/-- `CFDResultsAnalyzer.analyze_vortex_center(ar, re)` after the two optional
centerline loads: `none` models the early `return None`; inside, each
coordinate is `None` when the needed columns are absent or the velocity never
changes sign. -/
def analyze_vortex_center (df_v df_h : Option DataFrame) :
    Option (Option ℚ × Option ℚ) :=
  match df_v, df_h with
  | some dv, some dh =>
    let vortex_y :=
      match dv.col? "y-coordinate", dv.col? "x-velocity" with
      | some y, some u => vortexCoordinate y u
      | _, _ => none
    let vortex_x :=
      match dh.col? "x-coordinate", dh.col? "y-velocity" with
      | some x, some v => vortexCoordinate x v
      | _, _ => none
    some (vortex_x, vortex_y)
  | _, _ => none

/-! ### Concrete inputs used by the witness theorems -/

/-- A two-row moving-wall dataframe (integer-valued, so that all reductions
are kernel-decidable). -/
def dfMovingW : DataFrame :=
  ⟨2, [("x-coordinate", [0, 1]), ("y-coordinate", [1, 1]), ("pressure", [3, 4])]⟩

/-- A two-row stationary-wall dataframe carrying a `cellnumber` column. -/
def dfStatW : DataFrame :=
  ⟨2, [("x-coordinate", [0, 1]), ("y-coordinate", [0, 0]), ("x-velocity", [5, 6])]⟩

/-- The dataframe on which `clean_column_names` fails to deduplicate: the two
distinct input names `x-coordinate` and `x` collide after renaming. -/
def dfDupW : DataFrame :=
  ⟨1, [("x-coordinate", [1]), ("x", [2])]⟩

/-- A folder whose moving-wall CSV is missing. -/
def folderMissingW : WallFolder := ⟨.missing, .csv dfStatW⟩

/-- The point array produced by converting `dfMovingW`. -/
def ptsW : List (ℚ × ℚ × ℚ) := [(0, 1, 0), (1, 1, 0)]

/-- The data dictionary produced by converting `dfMovingW` as a moving wall. -/
def dataW : List (String × NArray) :=
  [("wall_id", NArray.ints [1, 1]), ("wall_type", NArray.ints [1, 1]),
   ("pressure", NArray.floats [3, 4])]

/-- The point array produced by converting `dfStatW`. -/
def ptsSW : List (ℚ × ℚ × ℚ) := [(0, 0, 0), (1, 0, 0)]

/-- The data dictionary produced by converting `dfStatW` as a stationary
wall. -/
def dataSW : List (String × NArray) :=
  [("wall_id", NArray.ints [0, 0]), ("wall_type", NArray.ints [0, 0]),
   ("velocity_x", NArray.floats [5, 6])]

/-- A small vertical-centerline dataframe. -/
def dfVCenterW : DataFrame :=
  ⟨3, [("y-coordinate", [0, 1, 2]), ("x-velocity", [2, -1, 3])]⟩

/-- A small horizontal-centerline dataframe. -/
def dfHCenterW : DataFrame :=
  ⟨3, [("x-coordinate", [0, 1, 2]), ("y-velocity", [1, 1, 1])]⟩

/-- A 100-row residual history with all residuals equal to 1. -/
def historyW : List ResRow := List.replicate 100 ⟨1, 1, 1⟩

/-! ## Helper lemmas -/

theorem clean_nrows (df : DataFrame) : (clean_column_names df).nrows = df.nrows := rfl

/-- Inversion of a successful `convert_csv_to_xdmf`. -/
theorem convert_inv {df : DataFrame} {wt : String} {wid : Int}
    {pts : List (ℚ × ℚ × ℚ)} {data : List (String × NArray)} {n : Nat}
    (hc : convert_csv_to_xdmf df wt wid = some (pts, data, n)) :
    ∃ xs ys, (clean_column_names df).col? "x" = some xs ∧
      (clean_column_names df).col? "y" = some ys ∧
      n = df.nrows ∧
      pts = (List.range df.nrows).map (fun i => (xs.getD i 0, ys.getD i 0, (0 : ℚ))) ∧
      data = [("wall_id", NArray.ints (List.replicate df.nrows (toInt32 wid))),
              ("wall_type", NArray.ints (List.replicate df.nrows
                 (if wt = "moving" then 1 else 0)))] ++
             scalar_fields.filterMap (fun f =>
               ((clean_column_names df).col? f).map (fun c => (f, NArray.floats c))) ++
             (match (clean_column_names df).col? "cell_id" with
              | some c => [("cell_id", NArray.ints (c.map ratToInt32))]
              | none => []) := by
  cases hx : (clean_column_names df).col? "x" with
  | none => simp [convert_csv_to_xdmf, hx] at hc
  | some xs =>
    cases hy : (clean_column_names df).col? "y" with
    | none => simp [convert_csv_to_xdmf, hx, hy] at hc
    | some ys =>
      refine ⟨xs, ys, rfl, rfl, ?_⟩
      simp only [convert_csv_to_xdmf, hx, hy, clean_nrows, Option.some.injEq,
        Prod.mk.injEq] at hc
      obtain ⟨h1, h2, h3⟩ := hc
      exact ⟨h3.symm, h1.symm, h2.symm⟩

theorem toInt32_eq_self {z : Int} (h1 : -2 ^ 31 ≤ z) (h2 : z < 2 ^ 31) :
    toInt32 z = z := by
  unfold toInt32
  omega

/-! ## C10 -/

/-- C10: every successful `convert_csv_to_xdmf` result has int32 fields
`wall_id` and `wall_type` in its data dictionary, each of length equal to the
number of CSV rows and constant over all points, with `wall_id` equal to the
`wall_id` argument and `wall_type` equal to 1 exactly when the `wall_type`
argument is "moving" and 0 otherwise; every field other than `wall_id`,
`wall_type` and `cell_id` is a float64 array. -/
theorem C10_wall_tagging (df : DataFrame) (wall_type : String) (wall_id : Int)
    (pts : List (ℚ × ℚ × ℚ)) (data : List (String × NArray)) (n : Nat)
    (hwid : -2 ^ 31 ≤ wall_id ∧ wall_id < 2 ^ 31)
    (hc : convert_csv_to_xdmf df wall_type wall_id = some (pts, data, n)) :
    n = df.nrows ∧
    List.lookup "wall_id" data = some (NArray.ints (List.replicate n wall_id)) ∧
    List.lookup "wall_type" data =
      some (NArray.ints (List.replicate n (if wall_type = "moving" then 1 else 0))) ∧
    (∀ fa ∈ data, fa.1 ≠ "wall_id" → fa.1 ≠ "wall_type" → fa.1 ≠ "cell_id" →
      ∃ l, fa.2 = NArray.floats l) := by
  obtain ⟨xs, ys, hx, hy, hn, hpts, hdata⟩ := convert_inv hc
  subst hn hpts hdata
  refine ⟨rfl, ?_, ?_, ?_⟩
  · simp [List.lookup, toInt32_eq_self hwid.1 hwid.2]
  · simp [List.lookup]
  · intro fa hfa h1 h2 h3
    simp only [List.mem_append, List.mem_cons, List.not_mem_nil, or_false] at hfa
    rcases hfa with ((h | h) | h) | h
    · exact absurd (congrArg Prod.fst h) h1
    · exact absurd (congrArg Prod.fst h) h2
    · obtain ⟨f, hf, hmap⟩ := List.mem_filterMap.mp h
      cases hcol : (clean_column_names df).col? f with
      | none => rw [hcol] at hmap; exact absurd hmap (by simp)
      | some c =>
        rw [hcol] at hmap
        have hfc : (f, NArray.floats c) = fa := by simpa using hmap
        exact ⟨c, by rw [← hfc]⟩
    · revert h
      cases hcid : (clean_column_names df).col? "cell_id" with
      | none => intro h; exact absurd h (List.not_mem_nil fa)
      | some c =>
        intro h
        simp only [List.mem_cons, List.not_mem_nil, or_false] at h
        exact absurd (congrArg Prod.fst h) h3

/-- Witness for C10 at a concrete two-row moving-wall dataframe. -/
theorem C10_wall_tagging_witness :
    ((-2 ^ 31 ≤ (1 : Int) ∧ (1 : Int) < 2 ^ 31) ∧
      convert_csv_to_xdmf dfMovingW "moving" 1 =
        some ([(0, 1, 0), (1, 1, 0)],
              [("wall_id", NArray.ints [1, 1]), ("wall_type", NArray.ints [1, 1]),
               ("pressure", NArray.floats [3, 4])], 2)) ∧
    (2 = dfMovingW.nrows ∧
     List.lookup "wall_id"
       [("wall_id", NArray.ints [1, 1]), ("wall_type", NArray.ints [1, 1]),
        ("pressure", NArray.floats [3, 4])] = some (NArray.ints (List.replicate 2 1)) ∧
     List.lookup "wall_type"
       [("wall_id", NArray.ints [1, 1]), ("wall_type", NArray.ints [1, 1]),
        ("pressure", NArray.floats [3, 4])] =
       some (NArray.ints (List.replicate 2 (if "moving" = "moving" then 1 else 0))) ∧
     (∀ fa ∈ [("wall_id", NArray.ints [1, 1]), ("wall_type", NArray.ints [1, 1]),
              ("pressure", NArray.floats [3, 4])],
        fa.1 ≠ "wall_id" → fa.1 ≠ "wall_type" → fa.1 ≠ "cell_id" →
        ∃ l, fa.2 = NArray.floats l)) :=
  ⟨⟨by decide, by decide⟩,
   C10_wall_tagging dfMovingW "moving" 1 [(0, 1, 0), (1, 1, 0)]
     [("wall_id", NArray.ints [1, 1]), ("wall_type", NArray.ints [1, 1]),
      ("pressure", NArray.floats [3, 4])] 2 ⟨by decide, by decide⟩ (by decide)⟩

/-! ## C8 -/

/-- C8 (code bug): `clean_column_names` is claimed (and its own comment says)
to return a dataframe with pairwise distinct column names, but pandas
label-list selection returns every column matching each kept label, so the
two distinct input names `x-coordinate` and `x` — which collide after the
Fluent renaming — both survive and the result carries the duplicate column
names `x`, `x`. -/
theorem C8_clean_column_names_duplicates :
    ((clean_column_names dfDupW).cols.map Prod.fst) = ["x", "x"] ∧
    ¬ ((clean_column_names dfDupW).cols.map Prod.fst).Nodup := by
  decide

/-! ## C9 -/

/-- C9: `merge_surfaces_to_xdmf` is atomic on error: if the moving-wall CSV is
missing, the stationary-walls CSV is missing, or either CSV fails to convert,
it returns `False` having written no output file. -/
theorem C9_merge_error_atomic (folder : WallFolder) (re_number : String)
    (h : folder.moving = FileState.missing ∨ folder.stat = FileState.missing ∨
         convertFile folder.moving "moving" 1 = none ∨
         convertFile folder.stat "stationary" 0 = none) :
    merge_surfaces_to_xdmf folder re_number = (false, []) := by
  obtain ⟨m, s⟩ := folder
  cases m with
  | missing => cases s <;> rfl
  | unreadable =>
    cases s with
    | missing => rfl
    | unreadable => rfl
    | csv dfs =>
      cases hcv : convert_csv_to_xdmf dfs "stationary" 0 with
      | none => simp [merge_surfaces_to_xdmf, convertFile, hcv]
      | some r =>
        obtain ⟨a, b, c⟩ := r
        simp [merge_surfaces_to_xdmf, convertFile, hcv]
  | csv dfm =>
    cases s with
    | missing => rfl
    | unreadable =>
      cases hcm : convert_csv_to_xdmf dfm "moving" 1 with
      | none => simp [merge_surfaces_to_xdmf, convertFile, hcm]
      | some r =>
        obtain ⟨a, b, c⟩ := r
        simp [merge_surfaces_to_xdmf, convertFile, hcm]
    | csv dfs =>
      rcases h with h | h | h | h
      · exact absurd h (by simp)
      · exact absurd h (by simp)
      · simp only [convertFile] at h
        cases hcv : convert_csv_to_xdmf dfs "stationary" 0 with
        | none => simp [merge_surfaces_to_xdmf, convertFile, h, hcv]
        | some r =>
          obtain ⟨a, b, c⟩ := r
          simp [merge_surfaces_to_xdmf, convertFile, h, hcv]
      · simp only [convertFile] at h
        cases hcm : convert_csv_to_xdmf dfm "moving" 1 with
        | none => simp [merge_surfaces_to_xdmf, convertFile, h, hcm]
        | some r =>
          obtain ⟨a, b, c⟩ := r
          simp [merge_surfaces_to_xdmf, convertFile, h, hcm]

/-- Witness for C9: a folder whose moving-wall file is missing produces the
`False` result and an empty write list. -/
theorem C9_merge_error_atomic_witness :
    (folderMissingW.moving = FileState.missing ∨
     folderMissingW.stat = FileState.missing ∨
     convertFile folderMissingW.moving "moving" 1 = none ∨
     convertFile folderMissingW.stat "stationary" 0 = none) ∧
    merge_surfaces_to_xdmf folderMissingW "100" = (false, []) :=
  ⟨Or.inl rfl, C9_merge_error_atomic folderMissingW "100" (Or.inl rfl)⟩

/-! ## C3 -/

theorem surface_moving (x y : ℚ) :
    calculate_surface_coordinate x y "moving_wall" = some x := rfl

theorem surface_right (x y : ℚ) :
    calculate_surface_coordinate x y "right" = some (1 + (1 - y)) := rfl

theorem surface_bottom (x y : ℚ) :
    calculate_surface_coordinate x y "bottom" = some (2 + (1 - x)) := rfl

theorem surface_left (x y : ℚ) :
    calculate_surface_coordinate x y "left" = some (3 + y) := rfl

/-- C3: `calculate_surface_coordinate` returns the perimeter arc length
measured counterclockwise from the top-left corner (0,1): `s = x ∈ [0,1]` on
the moving (top) wall, `s = 1 + (1 - y) ∈ [1,2]` on the right wall,
`s = 2 + (1 - x) ∈ [2,3]` on the bottom wall and `s = 3 + y ∈ [3,4]` on the
left wall; consecutive walls meet at `s = 1, 2, 3`, and within each wall `s`
is strictly monotone in the traversal direction. -/
theorem C3_surface_coordinate :
    (∀ x y : ℚ, 0 ≤ x → x ≤ 1 →
      ∃ s, calculate_surface_coordinate x y "moving_wall" = some s ∧
        s = x ∧ 0 ≤ s ∧ s ≤ 1) ∧
    (∀ x y : ℚ, 0 ≤ y → y ≤ 1 →
      ∃ s, calculate_surface_coordinate x y "right" = some s ∧
        s = 1 + (1 - y) ∧ 1 ≤ s ∧ s ≤ 2) ∧
    (∀ x y : ℚ, 0 ≤ x → x ≤ 1 →
      ∃ s, calculate_surface_coordinate x y "bottom" = some s ∧
        s = 2 + (1 - x) ∧ 2 ≤ s ∧ s ≤ 3) ∧
    (∀ x y : ℚ, 0 ≤ y → y ≤ 1 →
      ∃ s, calculate_surface_coordinate x y "left" = some s ∧
        s = 3 + y ∧ 3 ≤ s ∧ s ≤ 4) ∧
    (calculate_surface_coordinate 1 1 "moving_wall" = some 1 ∧
     calculate_surface_coordinate 1 1 "right" = some 1) ∧
    (calculate_surface_coordinate 1 0 "right" = some 2 ∧
     calculate_surface_coordinate 1 0 "bottom" = some 2) ∧
    (calculate_surface_coordinate 0 0 "bottom" = some 3 ∧
     calculate_surface_coordinate 0 0 "left" = some 3) ∧
    (∀ x₁ y₁ x₂ y₂ s₁ s₂ : ℚ,
      calculate_surface_coordinate x₁ y₁ "moving_wall" = some s₁ →
      calculate_surface_coordinate x₂ y₂ "moving_wall" = some s₂ →
      x₁ < x₂ → s₁ < s₂) ∧
    (∀ x₁ y₁ x₂ y₂ s₁ s₂ : ℚ,
      calculate_surface_coordinate x₁ y₁ "right" = some s₁ →
      calculate_surface_coordinate x₂ y₂ "right" = some s₂ →
      y₂ < y₁ → s₁ < s₂) ∧
    (∀ x₁ y₁ x₂ y₂ s₁ s₂ : ℚ,
      calculate_surface_coordinate x₁ y₁ "bottom" = some s₁ →
      calculate_surface_coordinate x₂ y₂ "bottom" = some s₂ →
      x₂ < x₁ → s₁ < s₂) ∧
    (∀ x₁ y₁ x₂ y₂ s₁ s₂ : ℚ,
      calculate_surface_coordinate x₁ y₁ "left" = some s₁ →
      calculate_surface_coordinate x₂ y₂ "left" = some s₂ →
      y₁ < y₂ → s₁ < s₂) := by
  refine ⟨?_, ?_, ?_, ?_,
    ⟨surface_moving 1 1, by rw [surface_right]; norm_num⟩,
    ⟨by rw [surface_right]; norm_num, by rw [surface_bottom]; norm_num⟩,
    ⟨by rw [surface_bottom]; norm_num, by rw [surface_left]; norm_num⟩,
    ?_, ?_, ?_, ?_⟩
  · intro x y h0 h1
    exact ⟨x, surface_moving x y, rfl, h0, h1⟩
  · intro x y h0 h1
    exact ⟨1 + (1 - y), surface_right x y, rfl, by linarith, by linarith⟩
  · intro x y h0 h1
    exact ⟨2 + (1 - x), surface_bottom x y, rfl, by linarith, by linarith⟩
  · intro x y h0 h1
    exact ⟨3 + y, surface_left x y, rfl, by linarith, by linarith⟩
  · intro x₁ y₁ x₂ y₂ s₁ s₂ h₁ h₂ hx
    rw [surface_moving] at h₁ h₂
    obtain rfl := Option.some.inj h₁
    obtain rfl := Option.some.inj h₂
    linarith
  · intro x₁ y₁ x₂ y₂ s₁ s₂ h₁ h₂ hy
    rw [surface_right] at h₁ h₂
    obtain rfl := Option.some.inj h₁
    obtain rfl := Option.some.inj h₂
    linarith
  · intro x₁ y₁ x₂ y₂ s₁ s₂ h₁ h₂ hx
    rw [surface_bottom] at h₁ h₂
    obtain rfl := Option.some.inj h₁
    obtain rfl := Option.some.inj h₂
    linarith
  · intro x₁ y₁ x₂ y₂ s₁ s₂ h₁ h₂ hy
    rw [surface_left] at h₁ h₂
    obtain rfl := Option.some.inj h₁
    obtain rfl := Option.some.inj h₂
    linarith

/-- Witness for C3: the midpoint of the moving wall. -/
theorem C3_surface_coordinate_witness :
    ((0 : ℚ) ≤ 1 ∧ (1 : ℚ) ≤ 1) ∧
    (∃ s, calculate_surface_coordinate 1 1 "moving_wall" = some s ∧
      s = 1 ∧ 0 ≤ s ∧ s ≤ 1) :=
  ⟨⟨by decide, by decide⟩, C3_surface_coordinate.1 1 1 (by decide) (by decide)⟩

/-! ## C7 -/

theorem firstSignChange_eq_some_iff : ∀ {v : List ℚ} {i : Nat},
    firstSignChange v = some i ↔
      (i + 1 < v.length ∧ npSign (v.getD i 0) ≠ npSign (v.getD (i + 1) 0) ∧
       ∀ j < i, npSign (v.getD j 0) = npSign (v.getD (j + 1) 0)) := by
  intro v
  induction v with
  | nil => intro i; simp [firstSignChange]
  | cons a tail ih =>
    intro i
    cases tail with
    | nil => simp [firstSignChange]
    | cons b rest =>
      by_cases hab : npSign a = npSign b
      · rw [show firstSignChange (a :: b :: rest) =
            (firstSignChange (b :: rest)).map (fun i => i + 1) by
          simp [firstSignChange, hab]]
        constructor
        · intro h
          obtain ⟨i0, hi0, hmap⟩ := Option.map_eq_some'.mp h
          obtain ⟨h1, h2, h3⟩ := ih.mp hi0
          subst hmap
          refine ⟨by simpa using Nat.succ_lt_succ h1, by simpa using h2, ?_⟩
          intro j hj
          cases j with
          | zero => simpa using hab
          | succ j0 =>
            have := h3 j0 (Nat.lt_of_succ_lt_succ hj)
            simpa using this
        · rintro ⟨h1, h2, h3⟩
          cases i with
          | zero => exact absurd (by simpa using hab) h2
          | succ i0 =>
            have h1t : i0 + 1 < (b :: rest).length := by simpa using Nat.lt_of_succ_lt_succ h1
            have h2t : npSign ((b :: rest).getD i0 0) ≠ npSign ((b :: rest).getD (i0 + 1) 0) := by
              simpa using h2
            have h3t : ∀ j < i0, npSign ((b :: rest).getD j 0) =
                npSign ((b :: rest).getD (j + 1) 0) := by
              intro j hj
              have := h3 (j + 1) (Nat.succ_lt_succ hj)
              simpa using this
            have := ih.mpr ⟨h1t, h2t, h3t⟩
            rw [this]
            rfl
      · rw [show firstSignChange (a :: b :: rest) = some 0 by simp [firstSignChange, hab]]
        constructor
        · intro h
          obtain rfl := (Option.some.inj h).symm
          refine ⟨by simp, by simpa using hab, by intro j hj; omega⟩
        · rintro ⟨h1, h2, h3⟩
          cases i with
          | zero => rfl
          | succ i0 => exact absurd (by simpa using h3 0 (Nat.succ_pos i0)) hab

theorem firstSignChange_eq_none_iff : ∀ {v : List ℚ},
    firstSignChange v = none ↔
      ∀ i, i + 1 < v.length → npSign (v.getD i 0) = npSign (v.getD (i + 1) 0) := by
  intro v
  induction v with
  | nil => simp [firstSignChange]
  | cons a tail ih =>
    cases tail with
    | nil => simp [firstSignChange]
    | cons b rest =>
      by_cases hab : npSign a = npSign b
      · rw [show firstSignChange (a :: b :: rest) =
            (firstSignChange (b :: rest)).map (fun i => i + 1) by
          simp [firstSignChange, hab]]
        rw [Option.map_eq_none', ih]
        constructor
        · intro h i hi
          cases i with
          | zero => simpa using hab
          | succ i0 =>
            have := h i0 (by simpa using Nat.lt_of_succ_lt_succ hi)
            simpa using this
        · intro h i hi
          have := h (i + 1) (by simpa using Nat.succ_lt_succ hi)
          simpa using this
      · rw [show firstSignChange (a :: b :: rest) = some 0 by simp [firstSignChange, hab]]
        simp only [reduceCtorEq, false_iff]
        exact fun h => absurd (by simpa using h 0 (by simp)) hab

/-- C7: `analyze_vortex_center` returns `None` when either centerline file
cannot be loaded; otherwise, given the expected columns, the vortex
y-location is the midpoint `(y[i] + y[i+1])/2` at the first sign change of
the vertical-centerline x-velocity (and `None` when the sign never changes),
and symmetrically the x-location comes from the first sign change of the
horizontal-centerline y-velocity. -/
theorem C7_vortex_center (df_v df_h : Option DataFrame) :
    ((df_v = none ∨ df_h = none) → analyze_vortex_center df_v df_h = none) ∧
    (∀ dv dh, df_v = some dv → df_h = some dh →
      ∀ y u x v, dv.col? "y-coordinate" = some y → dv.col? "x-velocity" = some u →
        dh.col? "x-coordinate" = some x → dh.col? "y-velocity" = some v →
        ∃ vx vy, analyze_vortex_center df_v df_h = some (vx, vy) ∧
          (∀ m, vy = some m ↔ ∃ i, i + 1 < u.length ∧
            npSign (u.getD i 0) ≠ npSign (u.getD (i + 1) 0) ∧
            (∀ j < i, npSign (u.getD j 0) = npSign (u.getD (j + 1) 0)) ∧
            m = (y.getD i 0 + y.getD (i + 1) 0) / 2) ∧
          (vy = none ↔ ∀ i, i + 1 < u.length →
            npSign (u.getD i 0) = npSign (u.getD (i + 1) 0)) ∧
          (∀ m, vx = some m ↔ ∃ i, i + 1 < v.length ∧
            npSign (v.getD i 0) ≠ npSign (v.getD (i + 1) 0) ∧
            (∀ j < i, npSign (v.getD j 0) = npSign (v.getD (j + 1) 0)) ∧
            m = (x.getD i 0 + x.getD (i + 1) 0) / 2) ∧
          (vx = none ↔ ∀ i, i + 1 < v.length →
            npSign (v.getD i 0) = npSign (v.getD (i + 1) 0))) := by
  constructor
  · rintro (rfl | rfl)
    · rfl
    · cases df_v <;> rfl
  · rintro dv dh rfl rfl y u x v hy hu hx hv
    refine ⟨vortexCoordinate x v, vortexCoordinate y u, ?_, ?_, ?_, ?_, ?_⟩
    · simp [analyze_vortex_center, hy, hu, hx, hv]
    · intro m
      constructor
      · intro hm
        obtain ⟨i, hi, hmap⟩ := Option.map_eq_some'.mp hm
        obtain ⟨h1, h2, h3⟩ := firstSignChange_eq_some_iff.mp hi
        exact ⟨i, h1, h2, h3, hmap.symm⟩
      · rintro ⟨i, h1, h2, h3, rfl⟩
        have := firstSignChange_eq_some_iff.mpr ⟨h1, h2, h3⟩
        simp [vortexCoordinate, this]
    · rw [show (vortexCoordinate y u = none) ↔ firstSignChange u = none by
        simp [vortexCoordinate]]
      exact firstSignChange_eq_none_iff
    · intro m
      constructor
      · intro hm
        obtain ⟨i, hi, hmap⟩ := Option.map_eq_some'.mp hm
        obtain ⟨h1, h2, h3⟩ := firstSignChange_eq_some_iff.mp hi
        exact ⟨i, h1, h2, h3, hmap.symm⟩
      · rintro ⟨i, h1, h2, h3, rfl⟩
        have := firstSignChange_eq_some_iff.mpr ⟨h1, h2, h3⟩
        simp [vortexCoordinate, this]
    · rw [show (vortexCoordinate x v = none) ↔ firstSignChange v = none by
        simp [vortexCoordinate]]
      exact firstSignChange_eq_none_iff

/-- Witness for C7 at concrete three-row centerline dataframes. -/
theorem C7_vortex_center_witness :
    (dfVCenterW.col? "y-coordinate" = some [0, 1, 2] ∧
     dfVCenterW.col? "x-velocity" = some [2, -1, 3] ∧
     dfHCenterW.col? "x-coordinate" = some [0, 1, 2] ∧
     dfHCenterW.col? "y-velocity" = some [1, 1, 1]) ∧
    (∃ vx vy,
      analyze_vortex_center (some dfVCenterW) (some dfHCenterW) = some (vx, vy) ∧
      (∀ m, vy = some m ↔ ∃ i, i + 1 < ([2, -1, 3] : List ℚ).length ∧
        npSign (([2, -1, 3] : List ℚ).getD i 0) ≠
          npSign (([2, -1, 3] : List ℚ).getD (i + 1) 0) ∧
        (∀ j < i, npSign (([2, -1, 3] : List ℚ).getD j 0) =
          npSign (([2, -1, 3] : List ℚ).getD (j + 1) 0)) ∧
        m = (([0, 1, 2] : List ℚ).getD i 0 + ([0, 1, 2] : List ℚ).getD (i + 1) 0) / 2) ∧
      (vy = none ↔ ∀ i, i + 1 < ([2, -1, 3] : List ℚ).length →
        npSign (([2, -1, 3] : List ℚ).getD i 0) =
          npSign (([2, -1, 3] : List ℚ).getD (i + 1) 0)) ∧
      (∀ m, vx = some m ↔ ∃ i, i + 1 < ([1, 1, 1] : List ℚ).length ∧
        npSign (([1, 1, 1] : List ℚ).getD i 0) ≠
          npSign (([1, 1, 1] : List ℚ).getD (i + 1) 0) ∧
        (∀ j < i, npSign (([1, 1, 1] : List ℚ).getD j 0) =
          npSign (([1, 1, 1] : List ℚ).getD (j + 1) 0)) ∧
        m = (([0, 1, 2] : List ℚ).getD i 0 + ([0, 1, 2] : List ℚ).getD (i + 1) 0) / 2) ∧
      (vx = none ↔ ∀ i, i + 1 < ([1, 1, 1] : List ℚ).length →
        npSign (([1, 1, 1] : List ℚ).getD i 0) =
          npSign (([1, 1, 1] : List ℚ).getD (i + 1) 0))) :=
  ⟨⟨rfl, rfl, rfl, rfl⟩,
   (C7_vortex_center (some dfVCenterW) (some dfHCenterW)).2 dfVCenterW dfHCenterW rfl rfl
     [0, 1, 2] [2, -1, 3] [0, 1, 2] [1, 1, 1] rfl rfl rfl rfl⟩

/-! ## C6 -/

theorem q_min?_eq_some_iff {l : List ℚ} {a : ℚ} :
    l.min? = some a ↔ a ∈ l ∧ ∀ b ∈ l, a ≤ b := by
  haveI : Std.Antisymm (α := ℚ) (· ≤ ·) := ⟨fun h1 h2 => le_antisymm h1 h2⟩
  exact List.min?_eq_some_iff (fun a => le_refl a) (fun a b => min_choice a b)
    (fun a b c => le_min_iff)

theorem q_max?_eq_some_iff {l : List ℚ} {a : ℚ} :
    l.max? = some a ↔ a ∈ l ∧ ∀ b ∈ l, b ≤ a := by
  haveI : Std.Antisymm (α := ℚ) (· ≤ ·) := ⟨fun h1 h2 => le_antisymm h1 h2⟩
  exact List.max?_eq_some_iff (fun a => le_refl a) (fun a b => max_choice a b)
    (fun a b c => max_le_iff)

theorem find?_replace_self (name : String) (vals : List ℚ) :
    ∀ cols : List (String × List ℚ),
      (cols.map Prod.fst).contains name →
      (((cols.map (fun c => if c.1 = name then (c.1, vals) else c)).find?
        (fun c => c.1 == name)).map Prod.snd) = some vals := by
  intro cols
  induction cols with
  | nil => intro h; simp at h
  | cons c rest ih =>
    intro h
    by_cases hcn : c.1 = name
    · rw [List.map_cons, if_pos hcn, List.find?_cons_of_pos _ (by simp [hcn])]
      simp
    · rw [List.map_cons, if_neg hcn, List.find?_cons_of_neg _ (by simp [hcn])]
      apply ih
      simp only [List.map_cons, List.contains_cons, Bool.or_eq_true] at h
      rcases h with h | h
      · exact absurd (Eq.symm (beq_iff_eq.mp h)) hcn
      · exact h

theorem find?_append_single (name : String) (vals : List ℚ) :
    ∀ cols : List (String × List ℚ),
      ¬ (cols.map Prod.fst).contains name = true →
      (((cols ++ [(name, vals)]).find? (fun c => c.1 == name)).map Prod.snd) = some vals := by
  intro cols
  induction cols with
  | nil => intro h; simp [List.find?]
  | cons c rest ih =>
    intro h
    have hcn : ¬ c.1 = name := by
      intro e
      apply h
      rw [List.map_cons, List.contains_cons, Bool.or_eq_true]
      exact Or.inl (by simp [e])
    have h2 : ¬ (rest.map Prod.fst).contains name = true := by
      intro e
      apply h
      rw [List.map_cons, List.contains_cons, Bool.or_eq_true]
      exact Or.inr e
    rw [List.cons_append, List.find?_cons_of_neg _ (by simp [hcn])]
    exact ih h2

theorem setCol_col?_self (df : DataFrame) (name : String) (vals : List ℚ) :
    (df.setCol name vals).col? name = some vals := by
  unfold DataFrame.setCol
  by_cases hc : (df.cols.map Prod.fst).contains name
  · rw [if_pos hc]
    exact find?_replace_self name vals df.cols hc
  · rw [if_neg hc]
    exact find?_append_single name vals df.cols hc

theorem find?_replace_ne (name other : String) (vals : List ℚ) (h : other ≠ name) :
    ∀ cols : List (String × List ℚ),
      (cols.map (fun c => if c.1 = name then (c.1, vals) else c)).find?
        (fun c => c.1 == other) =
      cols.find? (fun c => c.1 == other) := by
  intro cols
  induction cols with
  | nil => rfl
  | cons c rest ih =>
    by_cases hco : c.1 = other
    · have hcn : ¬ c.1 = name := by rw [hco]; exact h
      rw [List.map_cons, if_neg hcn, List.find?_cons_of_pos _ (by simp [hco]),
        List.find?_cons_of_pos _ (by simp [hco])]
    · by_cases hcn : c.1 = name
      · rw [List.map_cons, if_pos hcn,
          List.find?_cons_of_neg _ (by simp [hco]),
          List.find?_cons_of_neg _ (by simp [hco])]
        exact ih
      · rw [List.map_cons, if_neg hcn,
          List.find?_cons_of_neg _ (by simp [hco]),
          List.find?_cons_of_neg _ (by simp [hco])]
        exact ih

theorem find?_append_ne (name other : String) (vals : List ℚ) (h : other ≠ name) :
    ∀ cols : List (String × List ℚ),
      (cols ++ [(name, vals)]).find? (fun c => c.1 == other) =
      cols.find? (fun c => c.1 == other) := by
  intro cols
  induction cols with
  | nil =>
    rw [List.nil_append,
      List.find?_cons_of_neg _ (by
        simp only [beq_iff_eq]
        exact fun e => h e.symm)]
  | cons c rest ih =>
    by_cases hco : c.1 = other
    · rw [List.cons_append, List.find?_cons_of_pos _ (by simp [hco]),
        List.find?_cons_of_pos _ (by simp [hco])]
    · rw [List.cons_append,
        List.find?_cons_of_neg _ (by simp [hco]),
        List.find?_cons_of_neg _ (by simp [hco])]
      exact ih

theorem setCol_col?_ne (df : DataFrame) (name other : String) (vals : List ℚ)
    (h : other ≠ name) :
    (df.setCol name vals).col? other = df.col? other := by
  unfold DataFrame.setCol
  by_cases hc : (df.cols.map Prod.fst).contains name
  · rw [if_pos hc]
    show ((df.cols.map _).find? _).map Prod.snd = _
    rw [find?_replace_ne name other vals h df.cols]
    rfl
  · rw [if_neg hc]
    show (((df.cols ++ [(name, vals)]).find? _).map Prod.snd) = _
    rw [find?_append_ne name other vals h df.cols]
    rfl

theorem getD_map_lt (f : ℚ → ℚ) : ∀ (l : List ℚ) (i : Nat), i < l.length →
    (l.map f).getD i 0 = f (l.getD i 0) := by
  intro l
  induction l with
  | nil => intro i h; simp at h
  | cons a rest ih =>
    intro i h
    cases i with
    | zero => simp
    | succ i0 => simpa using ih i0 (by simpa using Nat.lt_of_succ_lt_succ h)

theorem affine_min_max {l : List ℚ} {m M : ℚ}
    (hmin : l.min? = some m) (hmax : l.max? = some M) (hlt : m < M) :
    (l.map (fun c => (c - m) / (M - m))).min? = some 0 ∧
    (l.map (fun c => (c - m) / (M - m))).max? = some 1 := by
  obtain ⟨hm_mem, hm_le⟩ := q_min?_eq_some_iff.mp hmin
  obtain ⟨hM_mem, hM_ge⟩ := q_max?_eq_some_iff.mp hmax
  have hd : (0 : ℚ) < M - m := by linarith
  constructor
  · apply q_min?_eq_some_iff.mpr
    refine ⟨List.mem_map.mpr ⟨m, hm_mem, by simp⟩, ?_⟩
    intro b hb
    obtain ⟨c, hc, rfl⟩ := List.mem_map.mp hb
    exact div_nonneg (by linarith [hm_le c hc]) (le_of_lt hd)
  · apply q_max?_eq_some_iff.mpr
    refine ⟨List.mem_map.mpr ⟨M, hM_mem, div_self (ne_of_gt hd)⟩, ?_⟩
    intro b hb
    obtain ⟨c, hc, rfl⟩ := List.mem_map.mp hb
    rw [div_le_one hd]
    linarith [hM_ge c hc]

/-- C6: `normalize_cfd_data` adds a normalized coordinate column
`(c - min) / (max - min)` — whose minimum is 0, maximum is 1, and which is
strictly increasing wherever the original coordinate is — and normalized
velocity columns equal to the raw velocity divided by
`U_lid = Re * 1.004e-6 / 1.0`, leaving the original coordinate and velocity
columns unchanged. -/
theorem C6_normalize_cfd_data (v h : DataFrame) (Re : ℚ)
    (ys us xs vs : List ℚ)
    (hy : v.col? "y-coordinate" = some ys) (hu : v.col? "x-velocity" = some us)
    (hx : h.col? "x-coordinate" = some xs) (hw : h.col? "y-velocity" = some vs)
    (ymin ymax : ℚ) (hymin : ys.min? = some ymin) (hymax : ys.max? = some ymax)
    (hylt : ymin < ymax)
    (xmin xmax : ℚ) (hxmin : xs.min? = some xmin) (hxmax : xs.max? = some xmax)
    (hxlt : xmin < xmax) :
    ∃ v1 h1, normalize_cfd_data v h Re = some (v1, h1) ∧
      v1.col? "y_norm" = some (ys.map (fun c => (c - ymin) / (ymax - ymin))) ∧
      (ys.map (fun c => (c - ymin) / (ymax - ymin))).min? = some 0 ∧
      (ys.map (fun c => (c - ymin) / (ymax - ymin))).max? = some 1 ∧
      (∀ i j, i < ys.length → j < ys.length → ys.getD i 0 < ys.getD j 0 →
        (ys.map (fun c => (c - ymin) / (ymax - ymin))).getD i 0 <
        (ys.map (fun c => (c - ymin) / (ymax - ymin))).getD j 0) ∧
      v1.col? "u_norm" = some (us.map (fun u => u / (Re * (1004 / 1000000000) / 1))) ∧
      v1.col? "y-coordinate" = some ys ∧ v1.col? "x-velocity" = some us ∧
      h1.col? "x_norm" = some (xs.map (fun c => (c - xmin) / (xmax - xmin))) ∧
      (xs.map (fun c => (c - xmin) / (xmax - xmin))).min? = some 0 ∧
      (xs.map (fun c => (c - xmin) / (xmax - xmin))).max? = some 1 ∧
      (∀ i j, i < xs.length → j < xs.length → xs.getD i 0 < xs.getD j 0 →
        (xs.map (fun c => (c - xmin) / (xmax - xmin))).getD i 0 <
        (xs.map (fun c => (c - xmin) / (xmax - xmin))).getD j 0) ∧
      h1.col? "v_norm" = some (vs.map (fun w => w / (Re * (1004 / 1000000000) / 1))) ∧
      h1.col? "x-coordinate" = some xs ∧ h1.col? "y-velocity" = some vs := by
  have hcolMin_y : colMin ys = ymin := by rw [colMin, hymin]; rfl
  have hcolMax_y : colMax ys = ymax := by rw [colMax, hymax]; rfl
  have hcolMin_x : colMin xs = xmin := by rw [colMin, hxmin]; rfl
  have hcolMax_x : colMax xs = xmax := by rw [colMax, hxmax]; rfl
  have hnorm : normalize_cfd_data v h Re = some
      ((v.setCol "y_norm" (ys.map (fun c => (c - ymin) / (ymax - ymin)))).setCol "u_norm"
         (us.map (fun u => u / (Re * nuWater / 1))),
       (h.setCol "x_norm" (xs.map (fun c => (c - xmin) / (xmax - xmin)))).setCol "v_norm"
         (vs.map (fun w => w / (Re * nuWater / 1)))) := by
    simp only [normalize_cfd_data, hy, hu, hx, hw, hcolMin_y, hcolMax_y,
      hcolMin_x, hcolMax_x]
  have hmono : ∀ (l : List ℚ) (m M : ℚ), m < M →
      ∀ i j, i < l.length → j < l.length → l.getD i 0 < l.getD j 0 →
        (l.map (fun c => (c - m) / (M - m))).getD i 0 <
        (l.map (fun c => (c - m) / (M - m))).getD j 0 := by
    intro l m M hlt i j hi hj hij
    rw [getD_map_lt _ _ _ hi, getD_map_lt _ _ _ hj]
    have hd : (0 : ℚ) < M - m := by linarith
    rw [div_lt_div_iff hd hd]
    exact mul_lt_mul_of_pos_right (by linarith) hd
  refine ⟨_, _, hnorm, ?_, (affine_min_max hymin hymax hylt).1,
    (affine_min_max hymin hymax hylt).2, hmono ys ymin ymax hylt, ?_, ?_, ?_, ?_,
    (affine_min_max hxmin hxmax hxlt).1, (affine_min_max hxmin hxmax hxlt).2,
    hmono xs xmin xmax hxlt, ?_, ?_, ?_⟩
  · rw [setCol_col?_ne _ _ _ _ (by decide), setCol_col?_self]
  · rw [setCol_col?_self]
    rfl
  · rw [setCol_col?_ne _ _ _ _ (by decide), setCol_col?_ne _ _ _ _ (by decide)]
    exact hy
  · rw [setCol_col?_ne _ _ _ _ (by decide), setCol_col?_ne _ _ _ _ (by decide)]
    exact hu
  · rw [setCol_col?_ne _ _ _ _ (by decide), setCol_col?_self]
  · rw [setCol_col?_self]
    rfl
  · rw [setCol_col?_ne _ _ _ _ (by decide), setCol_col?_ne _ _ _ _ (by decide)]
    exact hx
  · rw [setCol_col?_ne _ _ _ _ (by decide), setCol_col?_ne _ _ _ _ (by decide)]
    exact hw

/-- Witness for C6 at concrete three-row centerline dataframes and Re = 100. -/
theorem C6_normalize_cfd_data_witness :
    (dfVCenterW.col? "y-coordinate" = some [0, 1, 2] ∧
     dfVCenterW.col? "x-velocity" = some [2, -1, 3] ∧
     dfHCenterW.col? "x-coordinate" = some [0, 1, 2] ∧
     dfHCenterW.col? "y-velocity" = some [1, 1, 1] ∧
     ([0, 1, 2] : List ℚ).min? = some 0 ∧ ([0, 1, 2] : List ℚ).max? = some 2 ∧
     (0 : ℚ) < 2) ∧
    (∃ v1 h1, normalize_cfd_data dfVCenterW dfHCenterW 100 = some (v1, h1) ∧
      v1.col? "y_norm" = some (([0, 1, 2] : List ℚ).map (fun c => (c - 0) / (2 - 0))) ∧
      (([0, 1, 2] : List ℚ).map (fun c => (c - 0) / (2 - 0))).min? = some 0 ∧
      (([0, 1, 2] : List ℚ).map (fun c => (c - 0) / (2 - 0))).max? = some 1 ∧
      (∀ i j, i < ([0, 1, 2] : List ℚ).length → j < ([0, 1, 2] : List ℚ).length →
        ([0, 1, 2] : List ℚ).getD i 0 < ([0, 1, 2] : List ℚ).getD j 0 →
        (([0, 1, 2] : List ℚ).map (fun c => (c - 0) / (2 - 0))).getD i 0 <
        (([0, 1, 2] : List ℚ).map (fun c => (c - 0) / (2 - 0))).getD j 0) ∧
      v1.col? "u_norm" =
        some (([2, -1, 3] : List ℚ).map (fun u => u / (100 * (1004 / 1000000000) / 1))) ∧
      v1.col? "y-coordinate" = some [0, 1, 2] ∧ v1.col? "x-velocity" = some [2, -1, 3] ∧
      h1.col? "x_norm" = some (([0, 1, 2] : List ℚ).map (fun c => (c - 0) / (2 - 0))) ∧
      (([0, 1, 2] : List ℚ).map (fun c => (c - 0) / (2 - 0))).min? = some 0 ∧
      (([0, 1, 2] : List ℚ).map (fun c => (c - 0) / (2 - 0))).max? = some 1 ∧
      (∀ i j, i < ([0, 1, 2] : List ℚ).length → j < ([0, 1, 2] : List ℚ).length →
        ([0, 1, 2] : List ℚ).getD i 0 < ([0, 1, 2] : List ℚ).getD j 0 →
        (([0, 1, 2] : List ℚ).map (fun c => (c - 0) / (2 - 0))).getD i 0 <
        (([0, 1, 2] : List ℚ).map (fun c => (c - 0) / (2 - 0))).getD j 0) ∧
      h1.col? "v_norm" =
        some (([1, 1, 1] : List ℚ).map (fun w => w / (100 * (1004 / 1000000000) / 1))) ∧
      h1.col? "x-coordinate" = some [0, 1, 2] ∧ h1.col? "y-velocity" = some [1, 1, 1]) :=
  ⟨⟨rfl, rfl, rfl, rfl, by decide, by decide, by decide⟩,
   C6_normalize_cfd_data dfVCenterW dfHCenterW 100 [0, 1, 2] [2, -1, 3] [0, 1, 2] [1, 1, 1]
     rfl rfl rfl rfl 0 2 (by decide) (by decide) (by decide)
     0 2 (by decide) (by decide) (by decide)⟩

/-! ## C1 -/

theorem map_fst_filterMap_cols (g : String → Option (List ℚ)) :
    ∀ names : List String,
      ((names.filterMap (fun f => (g f).map (fun c => (f, NArray.floats c)))).map Prod.fst) =
      names.filter (fun f => (g f).isSome) := by
  intro names
  induction names with
  | nil => rfl
  | cons a rest ih =>
    cases hga : g a with
    | none => simp [List.filterMap_cons, List.filter_cons, hga, ih]
    | some c => simp [List.filterMap_cons, List.filter_cons, hga, ih]

/-- The field names of a successful conversion are pairwise distinct and never
contain the reserved dataset name `coordinates`. -/
theorem convert_keys_nodup {df : DataFrame} {wt : String} {wid : Int}
    {pts : List (ℚ × ℚ × ℚ)} {data : List (String × NArray)} {n : Nat}
    (hc : convert_csv_to_xdmf df wt wid = some (pts, data, n)) :
    (data.map Prod.fst).Nodup ∧ "coordinates" ∉ data.map Prod.fst := by
  obtain ⟨xs, ys, hx, hy, hn, hpts, hdata⟩ := convert_inv hc
  have hsub : List.Sublist (data.map Prod.fst)
      (["wall_id", "wall_type"] ++ scalar_fields ++ ["cell_id"]) := by
    subst hdata
    rw [List.map_append, List.map_append,
      map_fst_filterMap_cols (fun f => (clean_column_names df).col? f) scalar_fields]
    refine List.Sublist.append (List.Sublist.append ?_ ?_) ?_
    · exact List.Sublist.refl _
    · exact List.filter_sublist _
    · cases hcid : (clean_column_names df).col? "cell_id" with
      | none => simp
      | some c => simp
  exact ⟨List.Nodup.sublist hsub (by decide),
    fun hmem => absurd (hsub.subset hmem) (by decide)⟩

theorem filter_key_unique : ∀ {data : List (String × NArray)},
    (data.map Prod.fst).Nodup → ∀ {f : String} {arr : NArray}, (f, arr) ∈ data →
    data.filter (fun fa => fa.1 == f) = [(f, arr)] := by
  intro data
  induction data with
  | nil => intro _ f arr hmem; cases hmem
  | cons c rest ih =>
    intro hnd f arr hmem
    rw [List.map_cons, List.nodup_cons] at hnd
    rcases List.mem_cons.mp hmem with rfl | hmem2
    · rw [List.filter_cons_of_pos (by simp)]
      have hrest : rest.filter (fun fa => fa.1 == f) = [] := by
        refine List.filter_eq_nil_iff.mpr ?_
        intro a ha hpa
        have h1 : a.1 = f := by simpa using hpa
        have h2 : a.1 ∈ rest.map Prod.fst := List.mem_map_of_mem Prod.fst ha
        rw [h1] at h2
        exact hnd.1 h2
      rw [hrest]
    · have hf : f ∈ rest.map Prod.fst := by
        have := List.mem_map_of_mem Prod.fst hmem2
        simpa using this
      have hne : ¬ (c.1 == f) = true := by
        simp only [beq_iff_eq]
        intro e
        exact hnd.1 (e ▸ hf)
      rw [@List.filter_cons_of_neg _ (fun fa => fa.1 == f) c rest hne]
      exact ih hnd.2 hmem2

theorem lookup_map_arr : ∀ {data : List (String × NArray)},
    (data.map Prod.fst).Nodup → ∀ {f : String} {a : NArray}, (f, a) ∈ data →
    List.lookup f (data.map (fun fa => (fa.1, H5Data.arr fa.2))) = some (H5Data.arr a) := by
  intro data
  induction data with
  | nil => intro _ f a hmem; cases hmem
  | cons c rest ih =>
    intro hnd f a hmem
    rw [List.map_cons, List.nodup_cons] at hnd
    rcases List.mem_cons.mp hmem with rfl | hmem2
    · simp [List.lookup]
    · have hf : f ∈ rest.map Prod.fst := by
        have := List.mem_map_of_mem Prod.fst hmem2
        simpa using this
      have hne : (f == c.1) = false := by
        simp only [beq_eq_false_iff_ne, ne_eq]
        intro e
        exact hnd.1 (e ▸ hf)
      rw [List.map_cons, List.lookup_cons]
      simp only [hne]
      exact ih hnd.2 hmem2

/-- C1: for a successful conversion, the XDMF descriptor matches the HDF5
container: the document holds exactly one Geometry DataItem (Dimensions
`N 3`, Format HDF, text `h5:/coordinates`), exactly one Scalar Node-centered
Attribute per data-dictionary key (Dimensions `N`, text `h5:/field`), the
HDF5 file holds exactly the `coordinates` dataset (N rows of 3 components)
plus one dataset per field, and every dataset referenced from the XDMF exists
in the HDF5 under the referenced name. -/
theorem C1_xdmf_matches_hdf5 (df : DataFrame) (wt : String) (wid : Int)
    (h5name : String)
    (pts : List (ℚ × ℚ × ℚ)) (data : List (String × NArray)) (n : Nat)
    (hc : convert_csv_to_xdmf df wt wid = some (pts, data, n)) :
    ∃ domain grid,
      (create_xdmf_file h5name pts data n).children = [domain] ∧
      domain.children = [grid] ∧
      (∃ geom gi,
        grid.children.filter (fun e => e.tag == "Geometry") = [geom] ∧
        geom.children = [gi] ∧
        gi.tag = "DataItem" ∧
        gi.attr "Dimensions" = some (toString n ++ " 3") ∧
        gi.attr "Format" = some "HDF" ∧
        gi.text = some (h5name ++ ":/coordinates")) ∧
      ((grid.children.filter (fun e => e.tag == "Attribute")).length = data.length ∧
       ∀ fa ∈ data,
         ∃ a di,
           (grid.children.filter (fun e => e.tag == "Attribute")).filter
             (fun e => e.attr "Name" == some fa.1) = [a] ∧
           a.attr "AttributeType" = some "Scalar" ∧
           a.attr "Center" = some "Node" ∧
           a.children = [di] ∧
           di.tag = "DataItem" ∧
           di.attr "Dimensions" = some (toString n) ∧
           di.attr "Format" = some "HDF" ∧
           di.text = some (h5name ++ ":/" ++ fa.1)) ∧
      ((save_to_hdf5 pts data).map Prod.fst = "coordinates" :: data.map Prod.fst ∧
       List.lookup "coordinates" (save_to_hdf5 pts data) = some (H5Data.coords pts) ∧
       pts.length = n ∧
       (∀ fa ∈ data, List.lookup fa.1 (save_to_hdf5 pts data) = some (H5Data.arr fa.2))) ∧
      (∀ e ∈ grid.children, ∀ di ∈ e.children, di.tag = "DataItem" →
        ∃ d, di.text = some (h5name ++ ":/" ++ d) ∧
          d ∈ (save_to_hdf5 pts data).map Prod.fst) := by
  obtain ⟨hnd, hncoord⟩ := convert_keys_nodup hc
  have hattr_filter : (List.map (xdmfAttrElem h5name n) data).filter
      (fun e => e.tag == "Geometry") = [] := by
    refine List.filter_eq_nil_iff.mpr ?_
    intro a ha
    obtain ⟨fa, _, rfl⟩ := List.mem_map.mp ha
    simp [xdmfAttrElem]
  have hattr_keep : (List.map (xdmfAttrElem h5name n) data).filter
      (fun e => e.tag == "Attribute") = List.map (xdmfAttrElem h5name n) data := by
    refine List.filter_eq_self.mpr ?_
    intro a ha
    obtain ⟨fa, _, rfl⟩ := List.mem_map.mp ha
    simp [xdmfAttrElem]
  refine ⟨_, _, rfl, rfl, ?_, ⟨?_, ?_⟩, ⟨?_, ?_, ?_, ?_⟩, ?_⟩
  · refine ⟨⟨"Geometry", [("GeometryType", "XYZ")], none, [xdmfGeomItem h5name n]⟩,
      xdmfGeomItem h5name n, ?_, rfl, rfl, rfl, rfl, rfl⟩
    show List.filter _ (_ :: _ :: List.map (xdmfAttrElem h5name n) data) = _
    rw [List.filter_cons_of_neg (by simp), List.filter_cons_of_pos (by simp),
      hattr_filter]
  · show (List.filter _ (_ :: _ :: List.map (xdmfAttrElem h5name n) data)).length = _
    rw [List.filter_cons_of_neg (by simp), List.filter_cons_of_neg (by simp),
      hattr_keep, List.length_map]
  · intro fa hfa
    refine ⟨xdmfAttrElem h5name n fa, _, ?_, rfl, rfl, rfl, rfl, rfl, rfl, rfl⟩
    show List.filter _ (List.filter _ (_ :: _ :: List.map (xdmfAttrElem h5name n) data)) = _
    rw [List.filter_cons_of_neg (by simp), List.filter_cons_of_neg (by simp),
      hattr_keep, List.filter_map]
    have hcongr : (data.filter ((fun e => e.attr "Name" == some fa.1) ∘
        xdmfAttrElem h5name n)) = data.filter (fun fb => fb.1 == fa.1) := by
      refine List.filter_congr ?_
      intro fb _
      show ((xdmfAttrElem h5name n fb).attr "Name" == some fa.1) = (fb.1 == fa.1)
      have hname : (xdmfAttrElem h5name n fb).attr "Name" = some fb.1 := rfl
      rw [hname]
      cases hb : fb.1 == fa.1 with
      | true => simp [beq_iff_eq.mp hb]
      | false =>
        have hne : ¬ fb.1 = fa.1 := by simpa using hb
        simp [hne]
    rw [hcongr, filter_key_unique hnd (show (fa.1, fa.2) ∈ data from hfa)]
    rfl
  · show List.map Prod.fst (save_to_hdf5 pts data) = _
    rw [save_to_hdf5, List.map_cons, List.map_map]
    rfl
  · simp [save_to_hdf5, List.lookup]
  · obtain ⟨xs, ys, hx, hy, hn, hpts, hdata⟩ := convert_inv hc
    subst hpts hn
    simp
  · intro fa hfa
    show List.lookup fa.1 (("coordinates", H5Data.coords pts) ::
      data.map (fun fb => (fb.1, H5Data.arr fb.2))) = _
    rw [List.lookup_cons]
    have hne : (fa.1 == "coordinates") = false := by
      simp only [beq_eq_false_iff_ne, ne_eq]
      intro e
      exact hncoord (e ▸ List.mem_map_of_mem Prod.fst hfa)
    simp only [hne]
    exact lookup_map_arr hnd (show (fa.1, fa.2) ∈ data from hfa)
  · intro e he di hdi hditag
    rcases List.mem_cons.mp he with rfl | he2
    · cases hdi
    · rcases List.mem_cons.mp he2 with rfl | he3
      · rcases List.mem_cons.mp hdi with rfl | hdi2
        · refine ⟨"coordinates", ?_, by simp [save_to_hdf5]⟩
          rw [String.append_assoc]
          rfl
        · cases hdi2
      · obtain ⟨fa, hfa, rfl⟩ := List.mem_map.mp he3
        rcases List.mem_cons.mp hdi with rfl | hdi2
        · refine ⟨fa.1, rfl, ?_⟩
          show fa.1 ∈ (save_to_hdf5 pts data).map Prod.fst
          rw [save_to_hdf5, List.map_cons, List.map_map]
          exact List.mem_cons.mpr (Or.inr (List.mem_map.mpr ⟨fa, hfa, rfl⟩))
        · cases hdi2

/-- Witness for C1 at the concrete two-row moving-wall dataframe. -/
theorem C1_xdmf_matches_hdf5_witness :
    (convert_csv_to_xdmf dfMovingW "moving" 1 = some (ptsW, dataW, 2)) ∧
    (∃ domain grid,
      (create_xdmf_file "Re100_moving_wall.h5" ptsW dataW 2).children = [domain] ∧
      domain.children = [grid] ∧
      (∃ geom gi,
        grid.children.filter (fun e => e.tag == "Geometry") = [geom] ∧
        geom.children = [gi] ∧
        gi.tag = "DataItem" ∧
        gi.attr "Dimensions" = some (toString 2 ++ " 3") ∧
        gi.attr "Format" = some "HDF" ∧
        gi.text = some ("Re100_moving_wall.h5" ++ ":/coordinates")) ∧
      ((grid.children.filter (fun e => e.tag == "Attribute")).length = dataW.length ∧
       ∀ fa ∈ dataW,
         ∃ a di,
           (grid.children.filter (fun e => e.tag == "Attribute")).filter
             (fun e => e.attr "Name" == some fa.1) = [a] ∧
           a.attr "AttributeType" = some "Scalar" ∧
           a.attr "Center" = some "Node" ∧
           a.children = [di] ∧
           di.tag = "DataItem" ∧
           di.attr "Dimensions" = some (toString 2) ∧
           di.attr "Format" = some "HDF" ∧
           di.text = some ("Re100_moving_wall.h5" ++ ":/" ++ fa.1)) ∧
      ((save_to_hdf5 ptsW dataW).map Prod.fst = "coordinates" :: dataW.map Prod.fst ∧
       List.lookup "coordinates" (save_to_hdf5 ptsW dataW) = some (H5Data.coords ptsW) ∧
       ptsW.length = 2 ∧
       (∀ fa ∈ dataW, List.lookup fa.1 (save_to_hdf5 ptsW dataW) = some (H5Data.arr fa.2))) ∧
      (∀ e ∈ grid.children, ∀ di ∈ e.children, di.tag = "DataItem" →
        ∃ d, di.text = some ("Re100_moving_wall.h5" ++ ":/" ++ d) ∧
          d ∈ (save_to_hdf5 ptsW dataW).map Prod.fst)) :=
  ⟨by decide,
   C1_xdmf_matches_hdf5 dfMovingW "moving" 1 "Re100_moving_wall.h5" ptsW dataW 2 (by decide)⟩

/-! ## C2 -/

theorem lookup_mem : ∀ {l : List (String × NArray)} {f : String} {a : NArray},
    List.lookup f l = some a → (f, a) ∈ l := by
  intro l
  induction l with
  | nil => intro f a h; cases h
  | cons c rest ih =>
    intro f a h
    rw [show c = (c.1, c.2) from rfl, List.lookup_cons] at h
    cases hb : f == c.1 with
    | true =>
      rw [hb] at h
      obtain rfl := Option.some.inj h
      exact List.mem_cons.mpr (Or.inl (by rw [beq_iff_eq.mp hb]))
    | false =>
      rw [hb] at h
      exact List.mem_cons.mpr (Or.inr (ih h))

theorem mem_keys_lookup : ∀ {l : List (String × NArray)} {f : String},
    f ∈ l.map Prod.fst → ∃ a, List.lookup f l = some a := by
  intro l
  induction l with
  | nil => intro f h; cases h
  | cons c rest ih =>
    intro f h
    by_cases hb : f = c.1
    · exact ⟨c.2, by rw [show c = (c.1, c.2) from rfl, List.lookup_cons]; simp [hb]⟩
    · rcases List.mem_cons.mp h with h1 | h2
      · exact absurd h1 hb
      · obtain ⟨a, ha⟩ := ih h2
        refine ⟨a, ?_⟩
        rw [show c = (c.1, c.2) from rfl, List.lookup_cons]
        have : (f == c.1) = false := by
          simp only [beq_eq_false_iff_ne, ne_eq]
          exact hb
        simp only [this]
        exact ha

theorem map_fst_filterMap_of_forall :
    ∀ {l : List String} {g : String → Option (String × NArray)},
      (∀ f ∈ l, ∃ v, g f = some (f, v)) →
      (l.filterMap g).map Prod.fst = l := by
  intro l
  induction l with
  | nil => intro g _; rfl
  | cons a rest ih =>
    intro g h
    obtain ⟨v, hv⟩ := h a (List.mem_cons_self a rest)
    rw [List.filterMap_cons, hv, List.map_cons]
    rw [ih (fun f hf => h f (List.mem_cons_of_mem a hf))]

theorem concat_take_drop {a b : NArray} (h : a.isInt32 = b.isInt32) :
    (a.concat b).take a.length = a ∧ (a.concat b).drop a.length = b ∧
    (a.concat b).length = a.length + b.length := by
  cases a with
  | ints la =>
    cases b with
    | ints lb =>
      refine ⟨?_, ?_, ?_⟩
      · show NArray.ints ((la ++ lb).take la.length) = NArray.ints la
        rw [List.take_left]
      · show NArray.ints ((la ++ lb).drop la.length) = NArray.ints lb
        rw [List.drop_left]
      · show (la ++ lb).length = la.length + lb.length
        rw [List.length_append]
    | floats lb => cases h
  | floats la =>
    cases b with
    | ints lb => cases h
    | floats lb =>
      refine ⟨?_, ?_, ?_⟩
      · show NArray.floats ((la ++ lb).take la.length) = NArray.floats la
        rw [List.take_left]
      · show NArray.floats ((la ++ lb).drop la.length) = NArray.floats lb
        rw [List.drop_left]
      · show (la ++ lb).length = la.length + lb.length
        rw [List.length_append]

theorem npZeros_isInt32 (b : Bool) (n : Nat) : (npZeros b n).isInt32 = b := by
  cases b <;> rfl

theorem npZeros_length (b : Bool) (n : Nat) : (npZeros b n).length = n := by
  cases b <;> simp [npZeros, NArray.length]

theorem mem_clean_cols {df : DataFrame} {c : String × List ℚ}
    (h : c ∈ (clean_column_names df).cols) : ∃ c0 ∈ df.cols, c.2 = c0.2 := by
  simp only [clean_column_names, selectColumns] at h
  rw [List.mem_flatMap] at h
  obtain ⟨k, _, hk⟩ := h
  have hmem := List.mem_of_mem_filter hk
  obtain ⟨c0, hc0, rfl⟩ := List.mem_map.mp hmem
  exact ⟨c0, hc0, rfl⟩

theorem clean_col?_len {df : DataFrame} {f : String} {l : List ℚ}
    (hwf : df.WFlen) (h : (clean_column_names df).col? f = some l) :
    l.length = df.nrows := by
  unfold DataFrame.col? at h
  cases hf : ((clean_column_names df).cols.find? (fun c => c.1 == f)) with
  | none => rw [hf] at h; cases h
  | some c =>
    rw [hf] at h
    obtain rfl := Option.some.inj h
    obtain ⟨c0, hc0, he⟩ := mem_clean_cols (List.mem_of_find?_eq_some hf)
    rw [he]
    exact hwf c0 hc0

/-- Every field array of a successful conversion has one entry per CSV row. -/
theorem convert_field_len {df : DataFrame} {wt : String} {wid : Int}
    {pts : List (ℚ × ℚ × ℚ)} {data : List (String × NArray)} {n : Nat}
    (hwf : df.WFlen) (hc : convert_csv_to_xdmf df wt wid = some (pts, data, n)) :
    ∀ fa ∈ data, fa.2.length = n := by
  obtain ⟨xs, ys, hx, hy, hn, hpts, hdata⟩ := convert_inv hc
  subst hn hdata
  intro fa hfa
  simp only [List.mem_append, List.mem_cons, List.not_mem_nil, or_false] at hfa
  rcases hfa with ((h | h) | h) | h
  · rw [h]
    simp [NArray.length]
  · rw [h]
    simp [NArray.length]
  · obtain ⟨f, hf, hmap⟩ := List.mem_filterMap.mp h
    cases hcol : (clean_column_names df).col? f with
    | none => rw [hcol] at hmap; exact absurd hmap (by simp)
    | some c =>
      rw [hcol] at hmap
      have hfc : (f, NArray.floats c) = fa := by simpa using hmap
      rw [← hfc]
      exact clean_col?_len hwf hcol
  · revert h
    cases hcid : (clean_column_names df).col? "cell_id" with
    | none => intro h; exact absurd h (List.not_mem_nil fa)
    | some c =>
      intro h
      simp only [List.mem_cons, List.not_mem_nil, or_false] at h
      rw [h]
      show (NArray.ints (c.map ratToInt32)).length = df.nrows
      simp only [NArray.length, List.length_map]
      exact clean_col?_len hwf hcid

/-- The dtype of every conversion field is determined by its name: int32 for
`wall_id`, `wall_type`, `cell_id`, float64 otherwise. -/
theorem convert_field_dtype {df : DataFrame} {wt : String} {wid : Int}
    {pts : List (ℚ × ℚ × ℚ)} {data : List (String × NArray)} {n : Nat}
    (hc : convert_csv_to_xdmf df wt wid = some (pts, data, n)) :
    ∀ fa ∈ data, fa.2.isInt32 =
      (fa.1 == "wall_id" || fa.1 == "wall_type" || fa.1 == "cell_id") := by
  obtain ⟨xs, ys, hx, hy, hn, hpts, hdata⟩ := convert_inv hc
  subst hdata
  intro fa hfa
  simp only [List.mem_append, List.mem_cons, List.not_mem_nil, or_false] at hfa
  rcases hfa with ((h | h) | h) | h
  · rw [h]; rfl
  · rw [h]; rfl
  · obtain ⟨f, hf, hmap⟩ := List.mem_filterMap.mp h
    cases hcol : (clean_column_names df).col? f with
    | none => rw [hcol] at hmap; exact absurd hmap (by simp)
    | some c =>
      rw [hcol] at hmap
      have hfc : (f, NArray.floats c) = fa := by simpa using hmap
      rw [← hfc]
      show false = _
      have : ∀ g ∈ scalar_fields,
          (g == "wall_id" || g == "wall_type" || g == "cell_id") = false := by decide
      rw [this f hf]
  · revert h
    cases hcid : (clean_column_names df).col? "cell_id" with
    | none => intro h; exact absurd h (List.not_mem_nil fa)
    | some c =>
      intro h
      simp only [List.mem_cons, List.not_mem_nil, or_false] at h
      rw [h]
      rfl

theorem convert_points_len {df : DataFrame} {wt : String} {wid : Int}
    {pts : List (ℚ × ℚ × ℚ)} {data : List (String × NArray)} {n : Nat}
    (hc : convert_csv_to_xdmf df wt wid = some (pts, data, n)) :
    pts.length = n := by
  obtain ⟨xs, ys, hx, hy, hn, hpts, hdata⟩ := convert_inv hc
  subst hn hpts
  simp

/-- Case analysis of one combined field. -/
theorem combineFields_lookup {md sd : List (String × NArray)} {mc sc : Nat}
    {f : String} {a : NArray}
    (h : List.lookup f (combineFields md sd mc sc) = some a) :
    (∃ am as, List.lookup f md = some am ∧ List.lookup f sd = some as ∧
      a = am.concat as) ∨
    (∃ am, List.lookup f md = some am ∧ List.lookup f sd = none ∧
      a = am.concat (npZeros am.isInt32 sc)) ∨
    (∃ as, List.lookup f md = none ∧ List.lookup f sd = some as ∧
      a = (npZeros as.isInt32 mc).concat as) := by
  have hmem := lookup_mem h
  simp only [combineFields] at hmem
  rw [List.mem_filterMap] at hmem
  obtain ⟨f0, _, hg⟩ := hmem
  cases hm : List.lookup f0 md with
  | some am =>
    cases hs : List.lookup f0 sd with
    | some as =>
      rw [hm, hs] at hg
      obtain ⟨rfl, rfl⟩ := Prod.mk.injEq .. ▸ Option.some.inj hg
      exact Or.inl ⟨am, as, hm, hs, rfl⟩
    | none =>
      rw [hm, hs] at hg
      obtain ⟨rfl, rfl⟩ := Prod.mk.injEq .. ▸ Option.some.inj hg
      exact Or.inr (Or.inl ⟨am, hm, hs, rfl⟩)
  | none =>
    cases hs : List.lookup f0 sd with
    | some as =>
      rw [hm, hs] at hg
      obtain ⟨rfl, rfl⟩ := Prod.mk.injEq .. ▸ Option.some.inj hg
      exact Or.inr (Or.inr ⟨as, hm, hs, rfl⟩)
    | none =>
      rw [hm, hs] at hg
      cases hg

theorem combineFields_keys (md sd : List (String × NArray)) (mc sc : Nat) :
    (combineFields md sd mc sc).map Prod.fst =
      (md.map Prod.fst) ++
        ((sd.map Prod.fst).filter (fun f => !(md.map Prod.fst).contains f)) := by
  apply map_fst_filterMap_of_forall
  intro f hf
  have hor : f ∈ md.map Prod.fst ∨ f ∈ sd.map Prod.fst := by
    rcases List.mem_append.mp hf with h | h
    · exact Or.inl h
    · exact Or.inr (List.mem_of_mem_filter h)
  cases hm : List.lookup f md with
  | some am =>
    cases hs : List.lookup f sd with
    | some as => exact ⟨am.concat as, rfl⟩
    | none => exact ⟨am.concat (npZeros am.isInt32 sc), rfl⟩
  | none =>
    cases hs : List.lookup f sd with
    | some as => exact ⟨(npZeros as.isInt32 mc).concat as, rfl⟩
    | none =>
      rcases hor with h | h
      · obtain ⟨a, ha⟩ := mem_keys_lookup h
        rw [hm] at ha
        cases ha
      · obtain ⟨a, ha⟩ := mem_keys_lookup h
        rw [hs] at ha
        cases ha

theorem combineFields_mem_keys {md sd : List (String × NArray)} {mc sc : Nat}
    {f : String} :
    f ∈ (combineFields md sd mc sc).map Prod.fst ↔
      f ∈ md.map Prod.fst ∨ f ∈ sd.map Prod.fst := by
  rw [combineFields_keys]
  constructor
  · intro h
    rcases List.mem_append.mp h with h | h
    · exact Or.inl h
    · exact Or.inr (List.mem_of_mem_filter h)
  · intro h
    by_cases hm : f ∈ md.map Prod.fst
    · exact List.mem_append.mpr (Or.inl hm)
    · rcases h with h | h
      · exact absurd h hm
      · refine List.mem_append.mpr (Or.inr (List.mem_filter.mpr ⟨h, ?_⟩))
        have hcf : ((md.map Prod.fst).contains f) = false := by
          cases hcc : (md.map Prod.fst).contains f with
          | false => rfl
          | true => exact absurd (List.elem_iff.mp hcc) hm
        rw [hcf]
        rfl

/-- C2: the combined dataset written by `merge_surfaces_to_xdmf` has exactly
the union of the moving/stationary field names; each combined field has
`moving_count + stat_count` entries, the first `moving_count` being the
moving-wall values (or zeros of the present side's dtype when the field is
absent on the moving wall) and the rest the stationary values (or zeros when
absent there); and the combined points are the moving points followed by the
stationary points. -/
theorem C2_merge_combined_fields (dfm dfs : DataFrame) (re : String)
    (hwfm : dfm.WFlen) (hwfs : dfs.WFlen)
    (mp sp : List (ℚ × ℚ × ℚ)) (md sd : List (String × NArray)) (mc sc : Nat)
    (hcm : convert_csv_to_xdmf dfm "moving" 1 = some (mp, md, mc))
    (hcs : convert_csv_to_xdmf dfs "stationary" 0 = some (sp, sd, sc)) :
    ((merge_surfaces_to_xdmf ⟨FileState.csv dfm, FileState.csv dfs⟩ re).1 = true ∧
     ("Re" ++ re ++ "_combined.h5",
       WriteContent.h5 (save_to_hdf5 (mp ++ sp) (combineFields md sd mc sc))) ∈
       (merge_surfaces_to_xdmf ⟨FileState.csv dfm, FileState.csv dfs⟩ re).2) ∧
    (∀ f, f ∈ (combineFields md sd mc sc).map Prod.fst ↔
      f ∈ md.map Prod.fst ∨ f ∈ sd.map Prod.fst) ∧
    (∀ f a, List.lookup f (combineFields md sd mc sc) = some a →
      a.length = mc + sc ∧
      (∀ am, List.lookup f md = some am →
        a.take mc = am ∧
        (∀ as, List.lookup f sd = some as → a.drop mc = as) ∧
        (List.lookup f sd = none → a.drop mc = npZeros am.isInt32 sc)) ∧
      (List.lookup f md = none → ∀ as, List.lookup f sd = some as →
        a.take mc = npZeros as.isInt32 mc ∧ a.drop mc = as)) ∧
    ((mp ++ sp).take mc = mp ∧ (mp ++ sp).drop mc = sp ∧
     (mp ++ sp).length = mc + sc) := by
  have hmplen : mp.length = mc := convert_points_len hcm
  have hsplen : sp.length = sc := convert_points_len hcs
  refine ⟨?_, fun f => combineFields_mem_keys, ?_, ?_, ?_, ?_⟩
  · constructor
    · simp [merge_surfaces_to_xdmf, convertFile, hcm, hcs]
    · simp [merge_surfaces_to_xdmf, convertFile, hcm, hcs]
  · intro f a h
    rcases combineFields_lookup h with
      ⟨am, as, hm, hs, rfl⟩ | ⟨am, hm, hs, rfl⟩ | ⟨as, hm, hs, rfl⟩
    · have hamlen : am.length = mc := convert_field_len hwfm hcm _ (lookup_mem hm)
      have haslen : as.length = sc := convert_field_len hwfs hcs _ (lookup_mem hs)
      have hdt : am.isInt32 = as.isInt32 := by
        rw [convert_field_dtype hcm _ (lookup_mem hm),
          convert_field_dtype hcs _ (lookup_mem hs)]
      obtain ⟨ht, hd, hl⟩ := concat_take_drop hdt
      refine ⟨by rw [hl, hamlen, haslen], ?_, ?_⟩
      · intro am0 hm0
        obtain rfl := Option.some.inj (hm ▸ hm0)
        refine ⟨by rw [← hamlen]; exact ht, ?_, ?_⟩
        · intro as0 hs0
          obtain rfl := Option.some.inj (hs ▸ hs0)
          rw [← hamlen]
          exact hd
        · intro hs0
          rw [hs] at hs0
          cases hs0
      · intro hm0
        rw [hm] at hm0
        cases hm0
    · have hamlen : am.length = mc := convert_field_len hwfm hcm _ (lookup_mem hm)
      have hdt : am.isInt32 = (npZeros am.isInt32 sc).isInt32 :=
        (npZeros_isInt32 am.isInt32 sc).symm
      obtain ⟨ht, hd, hl⟩ := concat_take_drop hdt
      refine ⟨by rw [hl, hamlen, npZeros_length], ?_, ?_⟩
      · intro am0 hm0
        obtain rfl := Option.some.inj (hm ▸ hm0)
        refine ⟨by rw [← hamlen]; exact ht, ?_, ?_⟩
        · intro as0 hs0
          rw [hs] at hs0
          cases hs0
        · intro _
          rw [← hamlen]
          exact hd
      · intro hm0
        rw [hm] at hm0
        cases hm0
    · have haslen : as.length = sc := convert_field_len hwfs hcs _ (lookup_mem hs)
      have hdt : (npZeros as.isInt32 mc).isInt32 = as.isInt32 :=
        npZeros_isInt32 as.isInt32 mc
      obtain ⟨ht, hd, hl⟩ := concat_take_drop hdt
      refine ⟨by rw [hl, haslen, npZeros_length], ?_, ?_⟩
      · intro am0 hm0
        rw [hm] at hm0
        cases hm0
      · intro _ as0 hs0
        obtain rfl := Option.some.inj (hs ▸ hs0)
        constructor
        · have hx := ht
          rw [npZeros_length] at hx
          exact hx
        · have hx := hd
          rw [npZeros_length] at hx
          exact hx
  · exact List.take_left' hmplen
  · exact List.drop_left' hmplen
  · rw [List.length_append, hmplen, hsplen]

/-- Witness for C2 at the concrete moving/stationary dataframes (the
`pressure` field exists only on the moving wall and `velocity_x` only on the
stationary walls, so both zero-padding branches are exercised). -/
theorem C2_merge_combined_fields_witness :
    (dfMovingW.WFlen ∧ dfStatW.WFlen ∧
     convert_csv_to_xdmf dfMovingW "moving" 1 = some (ptsW, dataW, 2) ∧
     convert_csv_to_xdmf dfStatW "stationary" 0 = some (ptsSW, dataSW, 2)) ∧
    (((merge_surfaces_to_xdmf ⟨FileState.csv dfMovingW, FileState.csv dfStatW⟩ "100").1
        = true ∧
      ("Re" ++ "100" ++ "_combined.h5",
        WriteContent.h5 (save_to_hdf5 (ptsW ++ ptsSW) (combineFields dataW dataSW 2 2))) ∈
        (merge_surfaces_to_xdmf ⟨FileState.csv dfMovingW, FileState.csv dfStatW⟩ "100").2) ∧
     (∀ f, f ∈ (combineFields dataW dataSW 2 2).map Prod.fst ↔
       f ∈ dataW.map Prod.fst ∨ f ∈ dataSW.map Prod.fst) ∧
     (∀ f a, List.lookup f (combineFields dataW dataSW 2 2) = some a →
       a.length = 2 + 2 ∧
       (∀ am, List.lookup f dataW = some am →
         a.take 2 = am ∧
         (∀ as, List.lookup f dataSW = some as → a.drop 2 = as) ∧
         (List.lookup f dataSW = none → a.drop 2 = npZeros am.isInt32 2)) ∧
       (List.lookup f dataW = none → ∀ as, List.lookup f dataSW = some as →
         a.take 2 = npZeros as.isInt32 2 ∧ a.drop 2 = as)) ∧
     ((ptsW ++ ptsSW).take 2 = ptsW ∧ (ptsW ++ ptsSW).drop 2 = ptsSW ∧
      (ptsW ++ ptsSW).length = 2 + 2)) :=
  ⟨⟨by unfold DataFrame.WFlen; decide, by unfold DataFrame.WFlen; decide,
    by decide, by decide⟩,
   C2_merge_combined_fields dfMovingW dfStatW "100"
     (by unfold DataFrame.WFlen; decide) (by unfold DataFrame.WFlen; decide)
     ptsW ptsSW dataW dataSW 2 2 (by decide) (by decide)⟩

/-! ## C5 -/

theorem colMin_lt_iff {l : List ℚ} (hl : l ≠ []) {t : ℚ} :
    colMin l < t ↔ ∃ b ∈ l, b < t := by
  obtain ⟨m, hm⟩ : ∃ m, l.min? = some m := by
    cases l with
    | nil => exact absurd rfl hl
    | cons a rest => exact ⟨_, rfl⟩
  obtain ⟨hmem, hle⟩ := q_min?_eq_some_iff.mp hm
  unfold colMin
  rw [hm]
  constructor
  · intro hlt
    exact ⟨m, hmem, hlt⟩
  · rintro ⟨b, hb, hbt⟩
    exact lt_of_le_of_lt (hle b hb) hbt

theorem colMin_lt_iff_exists {h : List ResRow} (hne : h ≠ []) (f : ResRow → ℚ)
    (t : ℚ) :
    (colMin (h.map f) < t) ↔ ∃ r ∈ h, f r < t := by
  rw [colMin_lt_iff (fun e => hne (List.map_eq_nil_iff.mp e))]
  constructor
  · rintro ⟨b, hb, hbt⟩
    obtain ⟨r, hr, rfl⟩ := List.mem_map.mp hb
    exact ⟨r, hr, hbt⟩
  · rintro ⟨r, hr, hrt⟩
    exact ⟨f r, List.mem_map_of_mem f hr, hrt⟩

theorem meanQ_pos {l : List ℚ} (hl : l ≠ []) (hp : ∀ x ∈ l, 0 < x) :
    0 < meanQ l := by
  unfold meanQ
  apply div_pos (List.sum_pos l hp hl)
  exact_mod_cast List.length_pos.mpr hl

theorem stdMeanBelowTenth_iff {l : List ℚ} (hm : 0 < meanQ l) :
    stdMeanBelowTenth l = true ↔ StdOverMeanLtTenth l := by
  unfold stdMeanBelowTenth StdOverMeanLtTenth
  rw [Bool.and_eq_true, decide_eq_true_iff, decide_eq_true_iff]
  have hmR : (0 : ℝ) < ((meanQ l : ℚ) : ℝ) := by exact_mod_cast hm
  have hyR : (0 : ℝ) < 1 / 10 * ((meanQ l : ℚ) : ℝ) := by positivity
  constructor
  · rintro ⟨-, hv⟩
    rw [div_lt_iff hmR, Real.sqrt_lt' hyR]
    have h2 : ((sampleVar l : ℚ) : ℝ) < (((meanQ l : ℚ) : ℝ) / 10) ^ 2 := by
      exact_mod_cast hv
    have h3 : (((meanQ l : ℚ) : ℝ) / 10) ^ 2 = (1 / 10 * ((meanQ l : ℚ) : ℝ)) ^ 2 := by
      ring
    linarith
  · intro hs
    rw [div_lt_iff hmR, Real.sqrt_lt' hyR] at hs
    refine ⟨hm, ?_⟩
    have h3 : (1 / 10 * ((meanQ l : ℚ) : ℝ)) ^ 2 = (((meanQ l : ℚ) : ℝ) / 10) ^ 2 := by
      ring
    rw [h3] at hs
    exact_mod_cast hs

theorem lastK_ne_nil {l : List ℚ} (hl : 100 ≤ l.length) : lastK 100 l ≠ [] := by
  intro e
  have h1 : (lastK 100 l).length = 100 := by
    unfold lastK
    rw [List.length_drop]
    omega
  rw [e] at h1
  simp at h1

theorem lastK_subset {l : List ℚ} : lastK 100 l ⊆ l := List.drop_subset _ _

theorem lastVal_map_getLast {h : List ResRow} (hne : h ≠ []) (f : ResRow → ℚ) :
    ∃ r, h.getLast? = some r ∧ lastVal (h.map f) = f r := by
  obtain ⟨r, hr⟩ : ∃ r, h.getLast? = some r := by
    cases hl : h.getLast? with
    | none => exact absurd (List.getLast?_eq_none_iff.mp hl) hne
    | some r => exact ⟨r, rfl⟩
  refine ⟨r, hr, ?_⟩
  unfold lastVal
  rw [List.getLastD_eq_getLast?, List.getLast?_map, hr]
  rfl

theorem pos_of_mem_lastK_map {h : List ResRow} (f : ResRow → ℚ)
    (hp : ∀ r ∈ h, 0 < f r) :
    ∀ x ∈ lastK 100 (h.map f), 0 < x := by
  intro x hx
  have hx2 : x ∈ h.map f := lastK_subset hx
  obtain ⟨r, hr, rfl⟩ := List.mem_map.mp hx2
  exact hp r hr

theorem status_eq_of_strict {h : List ResRow}
    (hn1 : ¬ h.length ≤ 1) (h100 : 100 ≤ h.length)
    (hms : (decide (colMin (h.map ResRow.cont) < 1 / 10 ^ 6) &&
            decide (colMin (h.map ResRow.xv) < 1 / 10 ^ 9) &&
            decide (colMin (h.map ResRow.yv) < 1 / 10 ^ 9)) = true) :
    plot_convergence_status h = "CONVERGED" := by
  simp only [plot_convergence_status, if_neg hn1, if_pos h100, hms, if_true]

theorem status_eq_of_practical {h : List ResRow}
    (hn1 : ¬ h.length ≤ 1) (h100 : 100 ≤ h.length)
    (hms : (decide (colMin (h.map ResRow.cont) < 1 / 10 ^ 6) &&
            decide (colMin (h.map ResRow.xv) < 1 / 10 ^ 9) &&
            decide (colMin (h.map ResRow.yv) < 1 / 10 ^ 9)) = false)
    (hmp : (decide (lastVal (h.map ResRow.cont) < 2 / 10 ^ 5) &&
            decide (lastVal (h.map ResRow.xv) < 3 / 10 ^ 8) &&
            decide (lastVal (h.map ResRow.yv) < 3 / 10 ^ 8) &&
            (stdMeanBelowTenth (lastK 100 (h.map ResRow.cont)) &&
             stdMeanBelowTenth (lastK 100 (h.map ResRow.xv)) &&
             stdMeanBelowTenth (lastK 100 (h.map ResRow.yv)))) = true) :
    plot_convergence_status h = "PRACTICALLY_CONVERGED" := by
  simp only [plot_convergence_status, if_neg hn1, if_pos h100, hms, hmp,
    Bool.false_eq_true, if_false, if_true]

theorem status_eq_of_plateaued {h : List ResRow}
    (hn1 : ¬ h.length ≤ 1) (h100 : 100 ≤ h.length)
    (hms : (decide (colMin (h.map ResRow.cont) < 1 / 10 ^ 6) &&
            decide (colMin (h.map ResRow.xv) < 1 / 10 ^ 9) &&
            decide (colMin (h.map ResRow.yv) < 1 / 10 ^ 9)) = false)
    (hmp : (decide (lastVal (h.map ResRow.cont) < 2 / 10 ^ 5) &&
            decide (lastVal (h.map ResRow.xv) < 3 / 10 ^ 8) &&
            decide (lastVal (h.map ResRow.yv) < 3 / 10 ^ 8) &&
            (stdMeanBelowTenth (lastK 100 (h.map ResRow.cont)) &&
             stdMeanBelowTenth (lastK 100 (h.map ResRow.xv)) &&
             stdMeanBelowTenth (lastK 100 (h.map ResRow.yv)))) = false)
    (hip : (stdMeanBelowTenth (lastK 100 (h.map ResRow.cont)) &&
            stdMeanBelowTenth (lastK 100 (h.map ResRow.xv)) &&
            stdMeanBelowTenth (lastK 100 (h.map ResRow.yv))) = true) :
    plot_convergence_status h = "PLATEAUED" := by
  have hfin : (decide (lastVal (h.map ResRow.cont) < 2 / 10 ^ 5) &&
      decide (lastVal (h.map ResRow.xv) < 3 / 10 ^ 8) &&
      decide (lastVal (h.map ResRow.yv) < 3 / 10 ^ 8)) = false := by
    cases hd : (decide (lastVal (h.map ResRow.cont) < 2 / 10 ^ 5) &&
        decide (lastVal (h.map ResRow.xv) < 3 / 10 ^ 8) &&
        decide (lastVal (h.map ResRow.yv) < 3 / 10 ^ 8)) with
    | false => rfl
    | true => rw [hd, hip] at hmp; cases hmp
  simp only [plot_convergence_status, if_neg hn1, if_pos h100, hms, hfin, hip,
    Bool.false_and, Bool.false_eq_true, if_false, if_true]

theorem status_eq_of_none {h : List ResRow}
    (hn1 : ¬ h.length ≤ 1) (h100 : 100 ≤ h.length)
    (hms : (decide (colMin (h.map ResRow.cont) < 1 / 10 ^ 6) &&
            decide (colMin (h.map ResRow.xv) < 1 / 10 ^ 9) &&
            decide (colMin (h.map ResRow.yv) < 1 / 10 ^ 9)) = false)
    (hmp : (decide (lastVal (h.map ResRow.cont) < 2 / 10 ^ 5) &&
            decide (lastVal (h.map ResRow.xv) < 3 / 10 ^ 8) &&
            decide (lastVal (h.map ResRow.yv) < 3 / 10 ^ 8) &&
            (stdMeanBelowTenth (lastK 100 (h.map ResRow.cont)) &&
             stdMeanBelowTenth (lastK 100 (h.map ResRow.xv)) &&
             stdMeanBelowTenth (lastK 100 (h.map ResRow.yv)))) = false)
    (hip : (stdMeanBelowTenth (lastK 100 (h.map ResRow.cont)) &&
            stdMeanBelowTenth (lastK 100 (h.map ResRow.xv)) &&
            stdMeanBelowTenth (lastK 100 (h.map ResRow.yv))) = false) :
    plot_convergence_status h = "NOT_CONVERGED" := by
  simp only [plot_convergence_status, if_neg hn1, if_pos h100, hms, hip,
    Bool.and_false, Bool.false_eq_true, if_false]

/-- C5: the convergence classification of `plot_convergence`: at most one row
gives FALSE_CONVERGENCE; 2 to 99 rows give UNKNOWN; with at least 100 rows,
CONVERGED exactly when the minimum continuity residual is below 1e-6 and the
minimum velocity residuals are below 1e-9, otherwise PRACTICALLY_CONVERGED
exactly when the final residuals are below 2e-5 / 3e-8 / 3e-8 and all three
last-100 std/mean ratios (sample standard deviation over mean) are below 0.1,
otherwise PLATEAUED exactly when the three ratios are below 0.1, and
NOT_CONVERGED in all remaining cases. -/
theorem C5_convergence_classification (h : List ResRow)
    (hp : ∀ r ∈ h, 0 < r.cont ∧ 0 < r.xv ∧ 0 < r.yv) :
    (h.length ≤ 1 → plot_convergence_status h = "FALSE_CONVERGENCE") ∧
    (2 ≤ h.length → h.length ≤ 99 → plot_convergence_status h = "UNKNOWN") ∧
    (100 ≤ h.length →
      ((plot_convergence_status h = "CONVERGED" ↔
        ((∃ r ∈ h, r.cont < 1 / 10 ^ 6) ∧ (∃ r ∈ h, r.xv < 1 / 10 ^ 9) ∧
         (∃ r ∈ h, r.yv < 1 / 10 ^ 9))) ∧
       (plot_convergence_status h = "PRACTICALLY_CONVERGED" ↔
        (¬ ((∃ r ∈ h, r.cont < 1 / 10 ^ 6) ∧ (∃ r ∈ h, r.xv < 1 / 10 ^ 9) ∧
            (∃ r ∈ h, r.yv < 1 / 10 ^ 9)) ∧
         ((∃ r, h.getLast? = some r ∧ r.cont < 2 / 10 ^ 5 ∧ r.xv < 3 / 10 ^ 8 ∧
            r.yv < 3 / 10 ^ 8) ∧
          (StdOverMeanLtTenth (lastK 100 (h.map ResRow.cont)) ∧
           StdOverMeanLtTenth (lastK 100 (h.map ResRow.xv)) ∧
           StdOverMeanLtTenth (lastK 100 (h.map ResRow.yv)))))) ∧
       (plot_convergence_status h = "PLATEAUED" ↔
        (¬ ((∃ r ∈ h, r.cont < 1 / 10 ^ 6) ∧ (∃ r ∈ h, r.xv < 1 / 10 ^ 9) ∧
            (∃ r ∈ h, r.yv < 1 / 10 ^ 9)) ∧
         ¬ ((∃ r, h.getLast? = some r ∧ r.cont < 2 / 10 ^ 5 ∧ r.xv < 3 / 10 ^ 8 ∧
            r.yv < 3 / 10 ^ 8) ∧
          (StdOverMeanLtTenth (lastK 100 (h.map ResRow.cont)) ∧
           StdOverMeanLtTenth (lastK 100 (h.map ResRow.xv)) ∧
           StdOverMeanLtTenth (lastK 100 (h.map ResRow.yv)))) ∧
         (StdOverMeanLtTenth (lastK 100 (h.map ResRow.cont)) ∧
          StdOverMeanLtTenth (lastK 100 (h.map ResRow.xv)) ∧
          StdOverMeanLtTenth (lastK 100 (h.map ResRow.yv))))) ∧
       (plot_convergence_status h = "NOT_CONVERGED" ↔
        (¬ ((∃ r ∈ h, r.cont < 1 / 10 ^ 6) ∧ (∃ r ∈ h, r.xv < 1 / 10 ^ 9) ∧
            (∃ r ∈ h, r.yv < 1 / 10 ^ 9)) ∧
         ¬ ((∃ r, h.getLast? = some r ∧ r.cont < 2 / 10 ^ 5 ∧ r.xv < 3 / 10 ^ 8 ∧
            r.yv < 3 / 10 ^ 8) ∧
          (StdOverMeanLtTenth (lastK 100 (h.map ResRow.cont)) ∧
           StdOverMeanLtTenth (lastK 100 (h.map ResRow.xv)) ∧
           StdOverMeanLtTenth (lastK 100 (h.map ResRow.yv)))) ∧
         ¬ (StdOverMeanLtTenth (lastK 100 (h.map ResRow.cont)) ∧
            StdOverMeanLtTenth (lastK 100 (h.map ResRow.xv)) ∧
            StdOverMeanLtTenth (lastK 100 (h.map ResRow.yv))))))) := by
  refine ⟨?_, ?_, ?_⟩
  · intro hl
    simp only [plot_convergence_status, if_pos hl]
  · intro h2 h9
    have hn1 : ¬ h.length ≤ 1 := by omega
    have hn100 : ¬ 100 ≤ h.length := by omega
    simp only [plot_convergence_status, if_neg hn1, if_neg hn100]
  · intro h100
    have hn1 : ¬ h.length ≤ 1 := by omega
    have hne : h ≠ [] := by
      intro e
      rw [e] at h100
      simp at h100
    have hms_iff : (decide (colMin (h.map ResRow.cont) < 1 / 10 ^ 6) &&
        decide (colMin (h.map ResRow.xv) < 1 / 10 ^ 9) &&
        decide (colMin (h.map ResRow.yv) < 1 / 10 ^ 9)) = true ↔
        ((∃ r ∈ h, r.cont < 1 / 10 ^ 6) ∧ (∃ r ∈ h, r.xv < 1 / 10 ^ 9) ∧
         (∃ r ∈ h, r.yv < 1 / 10 ^ 9)) := by
      rw [Bool.and_eq_true, Bool.and_eq_true, decide_eq_true_iff, decide_eq_true_iff,
        decide_eq_true_iff, colMin_lt_iff_exists hne, colMin_lt_iff_exists hne,
        colMin_lt_iff_exists hne, and_assoc]
    have hlc : 100 ≤ (h.map ResRow.cont).length := by
      rw [List.length_map]; exact h100
    have hlx : 100 ≤ (h.map ResRow.xv).length := by
      rw [List.length_map]; exact h100
    have hly : 100 ≤ (h.map ResRow.yv).length := by
      rw [List.length_map]; exact h100
    have hPc : 0 < meanQ (lastK 100 (h.map ResRow.cont)) :=
      meanQ_pos (lastK_ne_nil hlc) (pos_of_mem_lastK_map _ (fun r hr => (hp r hr).1))
    have hPx : 0 < meanQ (lastK 100 (h.map ResRow.xv)) :=
      meanQ_pos (lastK_ne_nil hlx) (pos_of_mem_lastK_map _ (fun r hr => (hp r hr).2.1))
    have hPy : 0 < meanQ (lastK 100 (h.map ResRow.yv)) :=
      meanQ_pos (lastK_ne_nil hly) (pos_of_mem_lastK_map _ (fun r hr => (hp r hr).2.2))
    have hip_iff : (stdMeanBelowTenth (lastK 100 (h.map ResRow.cont)) &&
        stdMeanBelowTenth (lastK 100 (h.map ResRow.xv)) &&
        stdMeanBelowTenth (lastK 100 (h.map ResRow.yv))) = true ↔
        (StdOverMeanLtTenth (lastK 100 (h.map ResRow.cont)) ∧
         StdOverMeanLtTenth (lastK 100 (h.map ResRow.xv)) ∧
         StdOverMeanLtTenth (lastK 100 (h.map ResRow.yv))) := by
      rw [Bool.and_eq_true, Bool.and_eq_true, stdMeanBelowTenth_iff hPc,
        stdMeanBelowTenth_iff hPx, stdMeanBelowTenth_iff hPy, and_assoc]
    obtain ⟨rc, hrc, hLc⟩ := lastVal_map_getLast hne ResRow.cont
    obtain ⟨rx, hrx, hLx⟩ := lastVal_map_getLast hne ResRow.xv
    obtain ⟨ry, hry, hLy⟩ := lastVal_map_getLast hne ResRow.yv
    rw [show rx = rc from Option.some.inj (hrx.symm.trans hrc)] at hLx
    rw [show ry = rc from Option.some.inj (hry.symm.trans hrc)] at hLy
    have hfin_iff : (decide (lastVal (h.map ResRow.cont) < 2 / 10 ^ 5) &&
        decide (lastVal (h.map ResRow.xv) < 3 / 10 ^ 8) &&
        decide (lastVal (h.map ResRow.yv) < 3 / 10 ^ 8)) = true ↔
        (∃ r, h.getLast? = some r ∧ r.cont < 2 / 10 ^ 5 ∧ r.xv < 3 / 10 ^ 8 ∧
          r.yv < 3 / 10 ^ 8) := by
      rw [Bool.and_eq_true, Bool.and_eq_true, decide_eq_true_iff, decide_eq_true_iff,
        decide_eq_true_iff, hLc, hLx, hLy]
      constructor
      · rintro ⟨⟨h1, h2⟩, h3⟩
        exact ⟨rc, hrc, h1, h2, h3⟩
      · rintro ⟨r, hr, h1, h2, h3⟩
        obtain rfl := Option.some.inj (hr.symm.trans hrc)
        exact ⟨⟨h1, h2⟩, h3⟩
    have hmp_iff : (decide (lastVal (h.map ResRow.cont) < 2 / 10 ^ 5) &&
        decide (lastVal (h.map ResRow.xv) < 3 / 10 ^ 8) &&
        decide (lastVal (h.map ResRow.yv) < 3 / 10 ^ 8) &&
        (stdMeanBelowTenth (lastK 100 (h.map ResRow.cont)) &&
         stdMeanBelowTenth (lastK 100 (h.map ResRow.xv)) &&
         stdMeanBelowTenth (lastK 100 (h.map ResRow.yv)))) = true ↔
        ((∃ r, h.getLast? = some r ∧ r.cont < 2 / 10 ^ 5 ∧ r.xv < 3 / 10 ^ 8 ∧
           r.yv < 3 / 10 ^ 8) ∧
         (StdOverMeanLtTenth (lastK 100 (h.map ResRow.cont)) ∧
          StdOverMeanLtTenth (lastK 100 (h.map ResRow.xv)) ∧
          StdOverMeanLtTenth (lastK 100 (h.map ResRow.yv)))) := by
      rw [Bool.and_eq_true, hfin_iff, hip_iff]
    cases hms : (decide (colMin (h.map ResRow.cont) < 1 / 10 ^ 6) &&
        decide (colMin (h.map ResRow.xv) < 1 / 10 ^ 9) &&
        decide (colMin (h.map ResRow.yv) < 1 / 10 ^ 9)) with
    | true =>
      have hst := status_eq_of_strict hn1 h100 hms
      have hS := hms_iff.mp hms
      refine ⟨⟨fun _ => hS, fun _ => hst⟩, ?_, ?_, ?_⟩
      · constructor
        · intro he
          rw [hst] at he
          exact absurd he (by decide)
        · rintro ⟨hns, -⟩
          exact absurd hS hns
      · constructor
        · intro he
          rw [hst] at he
          exact absurd he (by decide)
        · rintro ⟨hns, -, -⟩
          exact absurd hS hns
      · constructor
        · intro he
          rw [hst] at he
          exact absurd he (by decide)
        · rintro ⟨hns, -, -⟩
          exact absurd hS hns
    | false =>
      have hnS : ¬ ((∃ r ∈ h, r.cont < 1 / 10 ^ 6) ∧ (∃ r ∈ h, r.xv < 1 / 10 ^ 9) ∧
          (∃ r ∈ h, r.yv < 1 / 10 ^ 9)) := by
        intro s
        have := hms_iff.mpr s
        rw [hms] at this
        cases this
      cases hmp : (decide (lastVal (h.map ResRow.cont) < 2 / 10 ^ 5) &&
          decide (lastVal (h.map ResRow.xv) < 3 / 10 ^ 8) &&
          decide (lastVal (h.map ResRow.yv) < 3 / 10 ^ 8) &&
          (stdMeanBelowTenth (lastK 100 (h.map ResRow.cont)) &&
           stdMeanBelowTenth (lastK 100 (h.map ResRow.xv)) &&
           stdMeanBelowTenth (lastK 100 (h.map ResRow.yv)))) with
      | true =>
        have hst := status_eq_of_practical hn1 h100 hms hmp
        have hFP := hmp_iff.mp hmp
        refine ⟨?_, ⟨fun _ => ⟨hnS, hFP⟩, fun _ => hst⟩, ?_, ?_⟩
        · constructor
          · intro he
            rw [hst] at he
            exact absurd he (by decide)
          · intro hS2
            exact absurd hS2 hnS
        · constructor
          · intro he
            rw [hst] at he
            exact absurd he (by decide)
          · rintro ⟨-, hnfp, -⟩
            exact absurd hFP hnfp
        · constructor
          · intro he
            rw [hst] at he
            exact absurd he (by decide)
          · rintro ⟨-, -, hnp⟩
            exact absurd hFP.2 hnp
      | false =>
        have hnFP : ¬ ((∃ r, h.getLast? = some r ∧ r.cont < 2 / 10 ^ 5 ∧
            r.xv < 3 / 10 ^ 8 ∧ r.yv < 3 / 10 ^ 8) ∧
            (StdOverMeanLtTenth (lastK 100 (h.map ResRow.cont)) ∧
             StdOverMeanLtTenth (lastK 100 (h.map ResRow.xv)) ∧
             StdOverMeanLtTenth (lastK 100 (h.map ResRow.yv)))) := by
          intro fp
          have := hmp_iff.mpr fp
          rw [hmp] at this
          cases this
        cases hip : (stdMeanBelowTenth (lastK 100 (h.map ResRow.cont)) &&
            stdMeanBelowTenth (lastK 100 (h.map ResRow.xv)) &&
            stdMeanBelowTenth (lastK 100 (h.map ResRow.yv))) with
        | true =>
          have hst := status_eq_of_plateaued hn1 h100 hms hmp hip
          have hP := hip_iff.mp hip
          refine ⟨?_, ?_, ⟨fun _ => ⟨hnS, hnFP, hP⟩, fun _ => hst⟩, ?_⟩
          · constructor
            · intro he
              rw [hst] at he
              exact absurd he (by decide)
            · intro hS2
              exact absurd hS2 hnS
          · constructor
            · intro he
              rw [hst] at he
              exact absurd he (by decide)
            · rintro ⟨-, hfp⟩
              exact absurd hfp hnFP
          · constructor
            · intro he
              rw [hst] at he
              exact absurd he (by decide)
            · rintro ⟨-, -, hnp⟩
              exact absurd hP hnp
        | false =>
          have hst := status_eq_of_none hn1 h100 hms hmp hip
          have hnP : ¬ (StdOverMeanLtTenth (lastK 100 (h.map ResRow.cont)) ∧
              StdOverMeanLtTenth (lastK 100 (h.map ResRow.xv)) ∧
              StdOverMeanLtTenth (lastK 100 (h.map ResRow.yv))) := by
            intro p
            have := hip_iff.mpr p
            rw [hip] at this
            cases this
          refine ⟨?_, ?_, ?_, ⟨fun _ => ⟨hnS, hnFP, hnP⟩, fun _ => hst⟩⟩
          · constructor
            · intro he
              rw [hst] at he
              exact absurd he (by decide)
            · intro hS2
              exact absurd hS2 hnS
          · constructor
            · intro he
              rw [hst] at he
              exact absurd he (by decide)
            · rintro ⟨-, hfp⟩
              exact absurd hfp hnFP
          · constructor
            · intro he
              rw [hst] at he
              exact absurd he (by decide)
            · rintro ⟨-, -, hp2⟩
              exact absurd hp2 hnP

set_option maxRecDepth 4000 in
/-- Witness for C5 at a 100-row history with all residuals equal to 1. -/
theorem C5_convergence_classification_witness :
    (∀ r ∈ historyW, 0 < r.cont ∧ 0 < r.xv ∧ 0 < r.yv) ∧
    ((historyW.length ≤ 1 → plot_convergence_status historyW = "FALSE_CONVERGENCE") ∧
    (2 ≤ historyW.length → historyW.length ≤ 99 → plot_convergence_status historyW = "UNKNOWN") ∧
    (100 ≤ historyW.length →
      ((plot_convergence_status historyW = "CONVERGED" ↔
        ((∃ r ∈ historyW, r.cont < 1 / 10 ^ 6) ∧ (∃ r ∈ historyW, r.xv < 1 / 10 ^ 9) ∧
         (∃ r ∈ historyW, r.yv < 1 / 10 ^ 9))) ∧
       (plot_convergence_status historyW = "PRACTICALLY_CONVERGED" ↔
        (¬ ((∃ r ∈ historyW, r.cont < 1 / 10 ^ 6) ∧ (∃ r ∈ historyW, r.xv < 1 / 10 ^ 9) ∧
            (∃ r ∈ historyW, r.yv < 1 / 10 ^ 9)) ∧
         ((∃ r, historyW.getLast? = some r ∧ r.cont < 2 / 10 ^ 5 ∧ r.xv < 3 / 10 ^ 8 ∧
            r.yv < 3 / 10 ^ 8) ∧
          (StdOverMeanLtTenth (lastK 100 (historyW.map ResRow.cont)) ∧
           StdOverMeanLtTenth (lastK 100 (historyW.map ResRow.xv)) ∧
           StdOverMeanLtTenth (lastK 100 (historyW.map ResRow.yv)))))) ∧
       (plot_convergence_status historyW = "PLATEAUED" ↔
        (¬ ((∃ r ∈ historyW, r.cont < 1 / 10 ^ 6) ∧ (∃ r ∈ historyW, r.xv < 1 / 10 ^ 9) ∧
            (∃ r ∈ historyW, r.yv < 1 / 10 ^ 9)) ∧
         ¬ ((∃ r, historyW.getLast? = some r ∧ r.cont < 2 / 10 ^ 5 ∧ r.xv < 3 / 10 ^ 8 ∧
            r.yv < 3 / 10 ^ 8) ∧
          (StdOverMeanLtTenth (lastK 100 (historyW.map ResRow.cont)) ∧
           StdOverMeanLtTenth (lastK 100 (historyW.map ResRow.xv)) ∧
           StdOverMeanLtTenth (lastK 100 (historyW.map ResRow.yv)))) ∧
         (StdOverMeanLtTenth (lastK 100 (historyW.map ResRow.cont)) ∧
          StdOverMeanLtTenth (lastK 100 (historyW.map ResRow.xv)) ∧
          StdOverMeanLtTenth (lastK 100 (historyW.map ResRow.yv))))) ∧
       (plot_convergence_status historyW = "NOT_CONVERGED" ↔
        (¬ ((∃ r ∈ historyW, r.cont < 1 / 10 ^ 6) ∧ (∃ r ∈ historyW, r.xv < 1 / 10 ^ 9) ∧
            (∃ r ∈ historyW, r.yv < 1 / 10 ^ 9)) ∧
         ¬ ((∃ r, historyW.getLast? = some r ∧ r.cont < 2 / 10 ^ 5 ∧ r.xv < 3 / 10 ^ 8 ∧
            r.yv < 3 / 10 ^ 8) ∧
          (StdOverMeanLtTenth (lastK 100 (historyW.map ResRow.cont)) ∧
           StdOverMeanLtTenth (lastK 100 (historyW.map ResRow.xv)) ∧
           StdOverMeanLtTenth (lastK 100 (historyW.map ResRow.yv)))) ∧
         ¬ (StdOverMeanLtTenth (lastK 100 (historyW.map ResRow.cont)) ∧
            StdOverMeanLtTenth (lastK 100 (historyW.map ResRow.xv)) ∧
            StdOverMeanLtTenth (lastK 100 (historyW.map ResRow.yv)))))))) :=
  ⟨fun r hr => by rw [List.eq_of_mem_replicate hr]; exact ⟨by norm_num, by norm_num, by norm_num⟩,
   C5_convergence_classification historyW
     (fun r hr => by rw [List.eq_of_mem_replicate hr]; exact ⟨by norm_num, by norm_num, by norm_num⟩)⟩

/-! ## C4 -/

theorem mem_of_getLast?_eq_some {l : List (ℚ × ℚ)} {p : ℚ × ℚ}
    (h : l.getLast? = some p) : p ∈ l := by
  obtain ⟨ys, rfl⟩ := List.getLast?_eq_some_iff.mp h
  exact List.mem_append.mpr (Or.inr (List.mem_cons_self p []))

/-- `np.interp` clamps queries at or below the first sample coordinate to the
first sample value. -/
theorem interp1_clamp_lo : ∀ {l : List (ℚ × ℚ)} {p : ℚ × ℚ},
    l.head? = some p → ∀ {x : ℚ}, x ≤ p.1 → interp1 x l = p.2 := by
  intro l
  cases l with
  | nil => intro p hp; cases hp
  | cons q rest =>
    intro p hp x hx
    have hq : q = p := Option.some.inj hp
    cases rest with
    | nil => rw [show interp1 x [q] = q.2 from rfl, hq]
    | cons r rest2 =>
      rw [show interp1 x (q :: r :: rest2) =
        (if x ≤ q.1 then q.2
         else if x ≤ r.1 then q.2 + (r.2 - q.2) * (x - q.1) / (r.1 - q.1)
         else interp1 x (r :: rest2)) from rfl]
      rw [if_pos (by rw [hq]; exact hx), hq]

/-- `np.interp` clamps queries at or beyond the last sample coordinate to the
last sample value (samples strictly increasing). -/
theorem interp1_clamp_hi : ∀ {l : List (ℚ × ℚ)},
    List.Pairwise (fun a b : ℚ × ℚ => a.1 < b.1) l →
    ∀ {p : ℚ × ℚ}, l.getLast? = some p → ∀ {x : ℚ}, p.1 ≤ x → interp1 x l = p.2 := by
  intro l
  induction l with
  | nil => intro _ p hp; cases hp
  | cons q rest ih =>
    intro hs p hp x hx
    cases rest with
    | nil =>
      have hq : q = p := Option.some.inj hp
      rw [show interp1 x [q] = q.2 from rfl, hq]
    | cons r rest2 =>
      rw [List.getLast?_cons_cons] at hp
      have hqp : q.1 < p.1 := by
        have hmem : p ∈ r :: rest2 := mem_of_getLast?_eq_some hp
        exact (List.pairwise_cons.mp hs).1 p hmem
      have hnx : ¬ x ≤ q.1 := by
        intro hxq
        linarith
      rw [show interp1 x (q :: r :: rest2) =
        (if x ≤ q.1 then q.2
         else if x ≤ r.1 then q.2 + (r.2 - q.2) * (x - q.1) / (r.1 - q.1)
         else interp1 x (r :: rest2)) from rfl]
      rw [if_neg hnx]
      by_cases hxr : x ≤ r.1
      · rw [if_pos hxr]
        cases rest2 with
        | nil =>
          have hr : r = p := Option.some.inj hp
          have hq : q.1 < r.1 :=
            (List.pairwise_cons.mp hs).1 r (List.mem_cons_self r [])
          have hxe : x = r.1 := le_antisymm hxr (by rw [hr]; exact hx)
          have hne : r.1 - q.1 ≠ 0 := by
            intro e
            have : r.1 = q.1 := by linarith
            linarith
          rw [hxe, mul_div_assoc, div_self hne, mul_one, ← hr]
          ring
        | cons t rest3 =>
          exfalso
          have hrp : r.1 < p.1 := by
            have hmem : p ∈ t :: rest3 := mem_of_getLast?_eq_some
              (by rw [← @List.getLast?_cons_cons _ r t rest3]; exact hp)
            exact ((List.pairwise_cons.mp (List.pairwise_cons.mp hs).2).1 p hmem)
          linarith
      · rw [if_neg hxr]
        exact ih (List.pairwise_cons.mp hs).2 hp hx

/-- `np.interp` reproduces the sample value exactly at a sample coordinate
(samples strictly increasing). -/
theorem interp1_node : ∀ {l : List (ℚ × ℚ)},
    List.Pairwise (fun a b : ℚ × ℚ => a.1 < b.1) l →
    ∀ {p : ℚ × ℚ}, p ∈ l → interp1 p.1 l = p.2 := by
  intro l
  induction l with
  | nil => intro _ p hp; cases hp
  | cons q rest ih =>
    intro hs p hp
    cases rest with
    | nil =>
      have hq : p = q := by simpa using hp
      rw [show interp1 p.1 [q] = q.2 from rfl, hq]
    | cons r rest2 =>
      rw [show interp1 p.1 (q :: r :: rest2) =
        (if p.1 ≤ q.1 then q.2
         else if p.1 ≤ r.1 then q.2 + (r.2 - q.2) * (p.1 - q.1) / (r.1 - q.1)
         else interp1 p.1 (r :: rest2)) from rfl]
      rcases List.mem_cons.mp hp with heq | hp2
      · rw [if_pos (by rw [heq] : p.1 ≤ q.1), heq]
      · have hqp : q.1 < p.1 := (List.pairwise_cons.mp hs).1 p hp2
        rw [if_neg (by linarith : ¬ p.1 ≤ q.1)]
        rcases List.mem_cons.mp hp2 with heq | hp3
        · rw [if_pos (by rw [heq] : p.1 ≤ r.1)]
          have hq : q.1 < r.1 :=
            (List.pairwise_cons.mp hs).1 r (List.mem_cons_self r rest2)
          have hne : r.1 - q.1 ≠ 0 := by
            intro e
            have : r.1 = q.1 := by linarith
            linarith
          rw [heq, mul_div_assoc, div_self hne, mul_one]
          ring
        · have hrp : r.1 < p.1 :=
            ((List.pairwise_cons.mp (List.pairwise_cons.mp hs).2).1 p hp3)
          rw [if_neg (by linarith : ¬ p.1 ≤ r.1)]
          exact ih (List.pairwise_cons.mp hs).2 hp2

theorem sortByCoord_perm (l : List (ℚ × ℚ)) : (sortByCoord l).Perm l :=
  List.mergeSort_perm l _

theorem sortByCoord_sorted (l : List (ℚ × ℚ)) :
    List.Pairwise (fun a b : ℚ × ℚ => a.1 ≤ b.1) (sortByCoord l) := by
  have htrans : ∀ (a b c : ℚ × ℚ),
      (fun a b : ℚ × ℚ => decide (a.1 ≤ b.1)) a b = true →
      (fun a b : ℚ × ℚ => decide (a.1 ≤ b.1)) b c = true →
      (fun a b : ℚ × ℚ => decide (a.1 ≤ b.1)) a c = true := by
    intro a b c hab hbc
    have hab2 : a.1 ≤ b.1 := by simpa using hab
    have hbc2 : b.1 ≤ c.1 := by simpa using hbc
    simpa using le_trans hab2 hbc2
  have htotal : ∀ (a b : ℚ × ℚ),
      ((fun a b : ℚ × ℚ => decide (a.1 ≤ b.1)) a b ||
       (fun a b : ℚ × ℚ => decide (a.1 ≤ b.1)) b a) = true := by
    intro a b
    have := le_total a.1 b.1
    rcases this with h | h
    · have : (decide (a.1 ≤ b.1)) = true := by simpa using h
      simp [this]
    · have : (decide (b.1 ≤ a.1)) = true := by simpa using h
      simp [this]
  have h := @List.sorted_mergeSort (ℚ × ℚ)
    (fun a b : ℚ × ℚ => decide (a.1 ≤ b.1)) htrans htotal l
  exact h.imp (fun hab => by simpa using hab)

theorem sortByCoord_strict {l : List (ℚ × ℚ)}
    (hnd : (l.map Prod.fst).Nodup) :
    List.Pairwise (fun a b : ℚ × ℚ => a.1 < b.1) (sortByCoord l) := by
  have hsorted := sortByCoord_sorted l
  have hperm : ((sortByCoord l).map Prod.fst).Perm (l.map Prod.fst) :=
    (sortByCoord_perm l).map _
  have hnd2 : ((sortByCoord l).map Prod.fst).Nodup := hperm.nodup_iff.mpr hnd
  have hne : (sortByCoord l).Pairwise (fun a b => a.1 ≠ b.1) :=
    List.pairwise_map.mp hnd2
  exact (hsorted.and hne).imp (fun hab => lt_of_le_of_ne hab.1 hab.2)

theorem errMetrics {E : List ℚ} (hlen : E.length = 17) :
    colMaxD E ∈ E ∧ (∀ e ∈ E, e ≤ colMaxD E) ∧
    meanQ E = E.sum / 17 ∧
    Real.sqrt ((meanQ (E.map (fun e => e ^ 2)) : ℚ) : ℝ) ^ 2 =
      (((E.map (fun e => e ^ 2)).sum / 17 : ℚ) : ℝ) ∧
    0 ≤ Real.sqrt ((meanQ (E.map (fun e => e ^ 2)) : ℚ) : ℝ) := by
  obtain ⟨m, hm⟩ : ∃ m, E.max? = some m := by
    cases E with
    | nil => exact absurd hlen (by decide)
    | cons a t => exact ⟨t.foldl max a, rfl⟩
  obtain ⟨hmem, hub⟩ := q_max?_eq_some_iff.mp hm
  have hcm : colMaxD E = m := by rw [colMaxD, hm]; rfl
  have hmean : meanQ E = E.sum / 17 := by
    rw [meanQ, hlen]; norm_num
  have hlen2 : (E.map (fun e => e ^ 2)).length = 17 := by rw [List.length_map, hlen]
  have hmean2 : meanQ (E.map (fun e => e ^ 2)) = (E.map (fun e => e ^ 2)).sum / 17 := by
    rw [meanQ, hlen2]; norm_num
  have h0 : (0 : ℚ) ≤ meanQ (E.map (fun e => e ^ 2)) := by
    rw [hmean2]
    apply div_nonneg
    · apply List.sum_nonneg
      intro x hxm
      obtain ⟨e, _, rfl⟩ := List.mem_map.mp hxm
      positivity
    · norm_num
  refine ⟨?_, ?_, hmean, ?_, Real.sqrt_nonneg _⟩
  · rw [hcm]; exact hmem
  · intro e he; rw [hcm]; exact hub e he
  · rw [Real.sq_sqrt (by exact_mod_cast h0)]
    exact_mod_cast hmean2

/-- C4: compare_with_benchmark sorts the normalized centerline profiles by
normalized coordinate, linearly interpolates the normalized velocities at the
17 Ghia coordinates with np.interp semantics (sample values reproduced at
coinciding coordinates, queries outside the sampled range clamped to the
endpoint values), and returns, for each of U and V, max error = max |cfd-ghia|,
mean error = mean |cfd-ghia| and L2 error = sqrt(mean of (cfd-ghia)^2) over
those 17 points (the L2 error appearing as `Real.sqrt` of the stored exact
square). -/
theorem C4_benchmark_errors (vdf hdf : DataFrame) (Re : ℚ) (g : GhiaData)
    (ys us xs vs : List ℚ)
    (hy : vdf.col? "y-coordinate" = some ys) (hu : vdf.col? "x-velocity" = some us)
    (hx : hdf.col? "x-coordinate" = some xs) (hw : hdf.col? "y-velocity" = some vs)
    (hgy : g.y.length = 17) (hgu : g.u.length = 17)
    (hgx : g.x.length = 17) (hgv : g.v.length = 17) :
    ∃ r, compare_with_benchmark vdf hdf Re g = some r ∧
      List.Pairwise (fun a b : ℚ × ℚ => a.1 ≤ b.1) (sortByCoord ((List.map (fun c => (c - colMin ys) / (colMax ys - colMin ys)) ys).zip (List.map (fun u => u / (Re * (1004 / 1000000000) / 1)) us))) ∧
      (sortByCoord ((List.map (fun c => (c - colMin ys) / (colMax ys - colMin ys)) ys).zip (List.map (fun u => u / (Re * (1004 / 1000000000) / 1)) us))).Perm ((List.map (fun c => (c - colMin ys) / (colMax ys - colMin ys)) ys).zip (List.map (fun u => u / (Re * (1004 / 1000000000) / 1)) us)) ∧
      List.Pairwise (fun a b : ℚ × ℚ => a.1 ≤ b.1) (sortByCoord ((List.map (fun c => (c - colMin xs) / (colMax xs - colMin xs)) xs).zip (List.map (fun w => w / (Re * (1004 / 1000000000) / 1)) vs))) ∧
      (sortByCoord ((List.map (fun c => (c - colMin xs) / (colMax xs - colMin xs)) xs).zip (List.map (fun w => w / (Re * (1004 / 1000000000) / 1)) vs))).Perm ((List.map (fun c => (c - colMin xs) / (colMax xs - colMin xs)) xs).zip (List.map (fun w => w / (Re * (1004 / 1000000000) / 1)) vs)) ∧
      (∀ p0, (sortByCoord ((List.map (fun c => (c - colMin ys) / (colMax ys - colMin ys)) ys).zip (List.map (fun u => u / (Re * (1004 / 1000000000) / 1)) us))).head? = some p0 → ∀ x : ℚ, x ≤ p0.1 →
        interp1 x (sortByCoord ((List.map (fun c => (c - colMin ys) / (colMax ys - colMin ys)) ys).zip (List.map (fun u => u / (Re * (1004 / 1000000000) / 1)) us))) = p0.2) ∧
      ((((List.map (fun c => (c - colMin ys) / (colMax ys - colMin ys)) ys).zip (List.map (fun u => u / (Re * (1004 / 1000000000) / 1)) us)).map Prod.fst).Nodup →
        (∀ pl, (sortByCoord ((List.map (fun c => (c - colMin ys) / (colMax ys - colMin ys)) ys).zip (List.map (fun u => u / (Re * (1004 / 1000000000) / 1)) us))).getLast? = some pl → ∀ x : ℚ, pl.1 ≤ x →
          interp1 x (sortByCoord ((List.map (fun c => (c - colMin ys) / (colMax ys - colMin ys)) ys).zip (List.map (fun u => u / (Re * (1004 / 1000000000) / 1)) us))) = pl.2) ∧
        (∀ p ∈ (sortByCoord ((List.map (fun c => (c - colMin ys) / (colMax ys - colMin ys)) ys).zip (List.map (fun u => u / (Re * (1004 / 1000000000) / 1)) us))), interp1 p.1 (sortByCoord ((List.map (fun c => (c - colMin ys) / (colMax ys - colMin ys)) ys).zip (List.map (fun u => u / (Re * (1004 / 1000000000) / 1)) us))) = p.2)) ∧
      (∀ p0, (sortByCoord ((List.map (fun c => (c - colMin xs) / (colMax xs - colMin xs)) xs).zip (List.map (fun w => w / (Re * (1004 / 1000000000) / 1)) vs))).head? = some p0 → ∀ x : ℚ, x ≤ p0.1 →
        interp1 x (sortByCoord ((List.map (fun c => (c - colMin xs) / (colMax xs - colMin xs)) xs).zip (List.map (fun w => w / (Re * (1004 / 1000000000) / 1)) vs))) = p0.2) ∧
      ((((List.map (fun c => (c - colMin xs) / (colMax xs - colMin xs)) xs).zip (List.map (fun w => w / (Re * (1004 / 1000000000) / 1)) vs)).map Prod.fst).Nodup →
        (∀ pl, (sortByCoord ((List.map (fun c => (c - colMin xs) / (colMax xs - colMin xs)) xs).zip (List.map (fun w => w / (Re * (1004 / 1000000000) / 1)) vs))).getLast? = some pl → ∀ x : ℚ, pl.1 ≤ x →
          interp1 x (sortByCoord ((List.map (fun c => (c - colMin xs) / (colMax xs - colMin xs)) xs).zip (List.map (fun w => w / (Re * (1004 / 1000000000) / 1)) vs))) = pl.2) ∧
        (∀ p ∈ (sortByCoord ((List.map (fun c => (c - colMin xs) / (colMax xs - colMin xs)) xs).zip (List.map (fun w => w / (Re * (1004 / 1000000000) / 1)) vs))), interp1 p.1 (sortByCoord ((List.map (fun c => (c - colMin xs) / (colMax xs - colMin xs)) xs).zip (List.map (fun w => w / (Re * (1004 / 1000000000) / 1)) vs))) = p.2)) ∧
      (absErrList (List.map (fun c => interp1 c (sortByCoord ((List.map (fun c => (c - colMin ys) / (colMax ys - colMin ys)) ys).zip (List.map (fun u => u / (Re * (1004 / 1000000000) / 1)) us)))) g.y) g.u).length = 17 ∧
      r.U_max ∈ (absErrList (List.map (fun c => interp1 c (sortByCoord ((List.map (fun c => (c - colMin ys) / (colMax ys - colMin ys)) ys).zip (List.map (fun u => u / (Re * (1004 / 1000000000) / 1)) us)))) g.y) g.u) ∧
      (∀ e ∈ (absErrList (List.map (fun c => interp1 c (sortByCoord ((List.map (fun c => (c - colMin ys) / (colMax ys - colMin ys)) ys).zip (List.map (fun u => u / (Re * (1004 / 1000000000) / 1)) us)))) g.y) g.u), e ≤ r.U_max) ∧
      r.U_mean = (absErrList (List.map (fun c => interp1 c (sortByCoord ((List.map (fun c => (c - colMin ys) / (colMax ys - colMin ys)) ys).zip (List.map (fun u => u / (Re * (1004 / 1000000000) / 1)) us)))) g.y) g.u).sum / 17 ∧
      Real.sqrt ((r.U_L2sq : ℚ) : ℝ) ^ 2 =
        ((((absErrList (List.map (fun c => interp1 c (sortByCoord ((List.map (fun c => (c - colMin ys) / (colMax ys - colMin ys)) ys).zip (List.map (fun u => u / (Re * (1004 / 1000000000) / 1)) us)))) g.y) g.u).map (fun e => e ^ 2)).sum / 17 : ℚ) : ℝ) ∧
      0 ≤ Real.sqrt ((r.U_L2sq : ℚ) : ℝ) ∧
      (absErrList (List.map (fun c => interp1 c (sortByCoord ((List.map (fun c => (c - colMin xs) / (colMax xs - colMin xs)) xs).zip (List.map (fun w => w / (Re * (1004 / 1000000000) / 1)) vs)))) g.x) g.v).length = 17 ∧
      r.V_max ∈ (absErrList (List.map (fun c => interp1 c (sortByCoord ((List.map (fun c => (c - colMin xs) / (colMax xs - colMin xs)) xs).zip (List.map (fun w => w / (Re * (1004 / 1000000000) / 1)) vs)))) g.x) g.v) ∧
      (∀ e ∈ (absErrList (List.map (fun c => interp1 c (sortByCoord ((List.map (fun c => (c - colMin xs) / (colMax xs - colMin xs)) xs).zip (List.map (fun w => w / (Re * (1004 / 1000000000) / 1)) vs)))) g.x) g.v), e ≤ r.V_max) ∧
      r.V_mean = (absErrList (List.map (fun c => interp1 c (sortByCoord ((List.map (fun c => (c - colMin xs) / (colMax xs - colMin xs)) xs).zip (List.map (fun w => w / (Re * (1004 / 1000000000) / 1)) vs)))) g.x) g.v).sum / 17 ∧
      Real.sqrt ((r.V_L2sq : ℚ) : ℝ) ^ 2 =
        ((((absErrList (List.map (fun c => interp1 c (sortByCoord ((List.map (fun c => (c - colMin xs) / (colMax xs - colMin xs)) xs).zip (List.map (fun w => w / (Re * (1004 / 1000000000) / 1)) vs)))) g.x) g.v).map (fun e => e ^ 2)).sum / 17 : ℚ) : ℝ) ∧
      0 ≤ Real.sqrt ((r.V_L2sq : ℚ) : ℝ) := by
  have hnorm : normalize_cfd_data vdf hdf Re = some
      ((vdf.setCol "y_norm"
          (ys.map (fun c => (c - colMin ys) / (colMax ys - colMin ys)))).setCol
         "u_norm" (us.map (fun u => u / (Re * nuWater / 1))),
       (hdf.setCol "x_norm"
          (xs.map (fun c => (c - colMin xs) / (colMax xs - colMin xs)))).setCol
         "v_norm" (vs.map (fun w => w / (Re * nuWater / 1)))) := by
    simp only [normalize_cfd_data, hy, hu, hx, hw]
  have hyn : ((vdf.setCol "y_norm"
      (ys.map (fun c => (c - colMin ys) / (colMax ys - colMin ys)))).setCol
      "u_norm" (us.map (fun u => u / (Re * nuWater / 1)))).col? "y_norm" =
      some (ys.map (fun c => (c - colMin ys) / (colMax ys - colMin ys))) := by
    rw [setCol_col?_ne _ _ _ _ (by decide), setCol_col?_self]
  have hun : ((vdf.setCol "y_norm"
      (ys.map (fun c => (c - colMin ys) / (colMax ys - colMin ys)))).setCol
      "u_norm" (us.map (fun u => u / (Re * nuWater / 1)))).col? "u_norm" =
      some (us.map (fun u => u / (Re * nuWater / 1))) :=
    setCol_col?_self _ _ _
  have hxn : ((hdf.setCol "x_norm"
      (xs.map (fun c => (c - colMin xs) / (colMax xs - colMin xs)))).setCol
      "v_norm" (vs.map (fun w => w / (Re * nuWater / 1)))).col? "x_norm" =
      some (xs.map (fun c => (c - colMin xs) / (colMax xs - colMin xs))) := by
    rw [setCol_col?_ne _ _ _ _ (by decide), setCol_col?_self]
  have hvn : ((hdf.setCol "x_norm"
      (xs.map (fun c => (c - colMin xs) / (colMax xs - colMin xs)))).setCol
      "v_norm" (vs.map (fun w => w / (Re * nuWater / 1)))).col? "v_norm" =
      some (vs.map (fun w => w / (Re * nuWater / 1))) :=
    setCol_col?_self _ _ _
  have hcomp : compare_with_benchmark vdf hdf Re g = some
      ⟨colMaxD (absErrList (g.y.map (fun c => interp1 c (sortByCoord
          ((ys.map (fun c => (c - colMin ys) / (colMax ys - colMin ys))).zip
           (us.map (fun u => u / (Re * nuWater / 1))))))) g.u),
       meanQ (absErrList (g.y.map (fun c => interp1 c (sortByCoord
          ((ys.map (fun c => (c - colMin ys) / (colMax ys - colMin ys))).zip
           (us.map (fun u => u / (Re * nuWater / 1))))))) g.u),
       meanQ ((absErrList (g.y.map (fun c => interp1 c (sortByCoord
          ((ys.map (fun c => (c - colMin ys) / (colMax ys - colMin ys))).zip
           (us.map (fun u => u / (Re * nuWater / 1))))))) g.u).map (fun e => e ^ 2)),
       colMaxD (absErrList (g.x.map (fun c => interp1 c (sortByCoord
          ((xs.map (fun c => (c - colMin xs) / (colMax xs - colMin xs))).zip
           (vs.map (fun w => w / (Re * nuWater / 1))))))) g.v),
       meanQ (absErrList (g.x.map (fun c => interp1 c (sortByCoord
          ((xs.map (fun c => (c - colMin xs) / (colMax xs - colMin xs))).zip
           (vs.map (fun w => w / (Re * nuWater / 1))))))) g.v),
       meanQ ((absErrList (g.x.map (fun c => interp1 c (sortByCoord
          ((xs.map (fun c => (c - colMin xs) / (colMax xs - colMin xs))).zip
           (vs.map (fun w => w / (Re * nuWater / 1))))))) g.v).map (fun e => e ^ 2))⟩ := by
    simp only [compare_with_benchmark, hnorm, hyn, hun, hxn, hvn]
  have hlenU : (absErrList (List.map (fun c => interp1 c (sortByCoord
      ((List.map (fun c => (c - colMin ys) / (colMax ys - colMin ys)) ys).zip
       (List.map (fun u => u / (Re * (1004 / 1000000000) / 1)) us)))) g.y) g.u).length = 17 := by
    unfold absErrList
    rw [List.length_zipWith, List.length_map, hgy, hgu]
    exact min_self 17
  have hlenV : (absErrList (List.map (fun c => interp1 c (sortByCoord
      ((List.map (fun c => (c - colMin xs) / (colMax xs - colMin xs)) xs).zip
       (List.map (fun w => w / (Re * (1004 / 1000000000) / 1)) vs)))) g.x) g.v).length = 17 := by
    unfold absErrList
    rw [List.length_zipWith, List.length_map, hgx, hgv]
    exact min_self 17
  have hMU := errMetrics hlenU
  have hMV := errMetrics hlenV
  refine ⟨_, hcomp, sortByCoord_sorted _, sortByCoord_perm _, sortByCoord_sorted _,
    sortByCoord_perm _,
    fun p0 hp0 x hxle => interp1_clamp_lo hp0 hxle,
    fun hnd => ⟨fun pl hpl x hxle => interp1_clamp_hi (sortByCoord_strict hnd) hpl hxle,
      fun p hp => interp1_node (sortByCoord_strict hnd) hp⟩,
    fun p0 hp0 x hxle => interp1_clamp_lo hp0 hxle,
    fun hnd => ⟨fun pl hpl x hxle => interp1_clamp_hi (sortByCoord_strict hnd) hpl hxle,
      fun p hp => interp1_node (sortByCoord_strict hnd) hp⟩,
    hlenU, hMU.1, hMU.2.1, hMU.2.2.1, hMU.2.2.2.1, hMU.2.2.2.2,
    hlenV, hMV.1, hMV.2.1, hMV.2.2.1, hMV.2.2.2.1, hMV.2.2.2.2⟩

theorem C4_benchmark_errors_witness :
    (dfVCenterW.col? "y-coordinate" = some ([0, 1, 2] : List ℚ) ∧
     dfVCenterW.col? "x-velocity" = some ([2, -1, 3] : List ℚ) ∧
     dfHCenterW.col? "x-coordinate" = some ([0, 1, 2] : List ℚ) ∧
     dfHCenterW.col? "y-velocity" = some ([1, 1, 1] : List ℚ) ∧
     GHIA_RE100.y.length = 17 ∧ GHIA_RE100.u.length = 17 ∧
     GHIA_RE100.x.length = 17 ∧ GHIA_RE100.v.length = 17) ∧
    (    ∃ r, compare_with_benchmark dfVCenterW dfHCenterW (100 : ℚ) GHIA_RE100 = some r ∧
      List.Pairwise (fun a b : ℚ × ℚ => a.1 ≤ b.1) (sortByCoord ((List.map (fun c => (c - colMin ([0, 1, 2] : List ℚ)) / (colMax ([0, 1, 2] : List ℚ) - colMin ([0, 1, 2] : List ℚ))) ([0, 1, 2] : List ℚ)).zip (List.map (fun u => u / ((100 : ℚ) * (1004 / 1000000000) / 1)) ([2, -1, 3] : List ℚ)))) ∧
      (sortByCoord ((List.map (fun c => (c - colMin ([0, 1, 2] : List ℚ)) / (colMax ([0, 1, 2] : List ℚ) - colMin ([0, 1, 2] : List ℚ))) ([0, 1, 2] : List ℚ)).zip (List.map (fun u => u / ((100 : ℚ) * (1004 / 1000000000) / 1)) ([2, -1, 3] : List ℚ)))).Perm ((List.map (fun c => (c - colMin ([0, 1, 2] : List ℚ)) / (colMax ([0, 1, 2] : List ℚ) - colMin ([0, 1, 2] : List ℚ))) ([0, 1, 2] : List ℚ)).zip (List.map (fun u => u / ((100 : ℚ) * (1004 / 1000000000) / 1)) ([2, -1, 3] : List ℚ))) ∧
      List.Pairwise (fun a b : ℚ × ℚ => a.1 ≤ b.1) (sortByCoord ((List.map (fun c => (c - colMin ([0, 1, 2] : List ℚ)) / (colMax ([0, 1, 2] : List ℚ) - colMin ([0, 1, 2] : List ℚ))) ([0, 1, 2] : List ℚ)).zip (List.map (fun w => w / ((100 : ℚ) * (1004 / 1000000000) / 1)) ([1, 1, 1] : List ℚ)))) ∧
      (sortByCoord ((List.map (fun c => (c - colMin ([0, 1, 2] : List ℚ)) / (colMax ([0, 1, 2] : List ℚ) - colMin ([0, 1, 2] : List ℚ))) ([0, 1, 2] : List ℚ)).zip (List.map (fun w => w / ((100 : ℚ) * (1004 / 1000000000) / 1)) ([1, 1, 1] : List ℚ)))).Perm ((List.map (fun c => (c - colMin ([0, 1, 2] : List ℚ)) / (colMax ([0, 1, 2] : List ℚ) - colMin ([0, 1, 2] : List ℚ))) ([0, 1, 2] : List ℚ)).zip (List.map (fun w => w / ((100 : ℚ) * (1004 / 1000000000) / 1)) ([1, 1, 1] : List ℚ))) ∧
      (∀ p0, (sortByCoord ((List.map (fun c => (c - colMin ([0, 1, 2] : List ℚ)) / (colMax ([0, 1, 2] : List ℚ) - colMin ([0, 1, 2] : List ℚ))) ([0, 1, 2] : List ℚ)).zip (List.map (fun u => u / ((100 : ℚ) * (1004 / 1000000000) / 1)) ([2, -1, 3] : List ℚ)))).head? = some p0 → ∀ x : ℚ, x ≤ p0.1 →
        interp1 x (sortByCoord ((List.map (fun c => (c - colMin ([0, 1, 2] : List ℚ)) / (colMax ([0, 1, 2] : List ℚ) - colMin ([0, 1, 2] : List ℚ))) ([0, 1, 2] : List ℚ)).zip (List.map (fun u => u / ((100 : ℚ) * (1004 / 1000000000) / 1)) ([2, -1, 3] : List ℚ)))) = p0.2) ∧
      ((((List.map (fun c => (c - colMin ([0, 1, 2] : List ℚ)) / (colMax ([0, 1, 2] : List ℚ) - colMin ([0, 1, 2] : List ℚ))) ([0, 1, 2] : List ℚ)).zip (List.map (fun u => u / ((100 : ℚ) * (1004 / 1000000000) / 1)) ([2, -1, 3] : List ℚ))).map Prod.fst).Nodup →
        (∀ pl, (sortByCoord ((List.map (fun c => (c - colMin ([0, 1, 2] : List ℚ)) / (colMax ([0, 1, 2] : List ℚ) - colMin ([0, 1, 2] : List ℚ))) ([0, 1, 2] : List ℚ)).zip (List.map (fun u => u / ((100 : ℚ) * (1004 / 1000000000) / 1)) ([2, -1, 3] : List ℚ)))).getLast? = some pl → ∀ x : ℚ, pl.1 ≤ x →
          interp1 x (sortByCoord ((List.map (fun c => (c - colMin ([0, 1, 2] : List ℚ)) / (colMax ([0, 1, 2] : List ℚ) - colMin ([0, 1, 2] : List ℚ))) ([0, 1, 2] : List ℚ)).zip (List.map (fun u => u / ((100 : ℚ) * (1004 / 1000000000) / 1)) ([2, -1, 3] : List ℚ)))) = pl.2) ∧
        (∀ p ∈ (sortByCoord ((List.map (fun c => (c - colMin ([0, 1, 2] : List ℚ)) / (colMax ([0, 1, 2] : List ℚ) - colMin ([0, 1, 2] : List ℚ))) ([0, 1, 2] : List ℚ)).zip (List.map (fun u => u / ((100 : ℚ) * (1004 / 1000000000) / 1)) ([2, -1, 3] : List ℚ)))), interp1 p.1 (sortByCoord ((List.map (fun c => (c - colMin ([0, 1, 2] : List ℚ)) / (colMax ([0, 1, 2] : List ℚ) - colMin ([0, 1, 2] : List ℚ))) ([0, 1, 2] : List ℚ)).zip (List.map (fun u => u / ((100 : ℚ) * (1004 / 1000000000) / 1)) ([2, -1, 3] : List ℚ)))) = p.2)) ∧
      (∀ p0, (sortByCoord ((List.map (fun c => (c - colMin ([0, 1, 2] : List ℚ)) / (colMax ([0, 1, 2] : List ℚ) - colMin ([0, 1, 2] : List ℚ))) ([0, 1, 2] : List ℚ)).zip (List.map (fun w => w / ((100 : ℚ) * (1004 / 1000000000) / 1)) ([1, 1, 1] : List ℚ)))).head? = some p0 → ∀ x : ℚ, x ≤ p0.1 →
        interp1 x (sortByCoord ((List.map (fun c => (c - colMin ([0, 1, 2] : List ℚ)) / (colMax ([0, 1, 2] : List ℚ) - colMin ([0, 1, 2] : List ℚ))) ([0, 1, 2] : List ℚ)).zip (List.map (fun w => w / ((100 : ℚ) * (1004 / 1000000000) / 1)) ([1, 1, 1] : List ℚ)))) = p0.2) ∧
      ((((List.map (fun c => (c - colMin ([0, 1, 2] : List ℚ)) / (colMax ([0, 1, 2] : List ℚ) - colMin ([0, 1, 2] : List ℚ))) ([0, 1, 2] : List ℚ)).zip (List.map (fun w => w / ((100 : ℚ) * (1004 / 1000000000) / 1)) ([1, 1, 1] : List ℚ))).map Prod.fst).Nodup →
        (∀ pl, (sortByCoord ((List.map (fun c => (c - colMin ([0, 1, 2] : List ℚ)) / (colMax ([0, 1, 2] : List ℚ) - colMin ([0, 1, 2] : List ℚ))) ([0, 1, 2] : List ℚ)).zip (List.map (fun w => w / ((100 : ℚ) * (1004 / 1000000000) / 1)) ([1, 1, 1] : List ℚ)))).getLast? = some pl → ∀ x : ℚ, pl.1 ≤ x →
          interp1 x (sortByCoord ((List.map (fun c => (c - colMin ([0, 1, 2] : List ℚ)) / (colMax ([0, 1, 2] : List ℚ) - colMin ([0, 1, 2] : List ℚ))) ([0, 1, 2] : List ℚ)).zip (List.map (fun w => w / ((100 : ℚ) * (1004 / 1000000000) / 1)) ([1, 1, 1] : List ℚ)))) = pl.2) ∧
        (∀ p ∈ (sortByCoord ((List.map (fun c => (c - colMin ([0, 1, 2] : List ℚ)) / (colMax ([0, 1, 2] : List ℚ) - colMin ([0, 1, 2] : List ℚ))) ([0, 1, 2] : List ℚ)).zip (List.map (fun w => w / ((100 : ℚ) * (1004 / 1000000000) / 1)) ([1, 1, 1] : List ℚ)))), interp1 p.1 (sortByCoord ((List.map (fun c => (c - colMin ([0, 1, 2] : List ℚ)) / (colMax ([0, 1, 2] : List ℚ) - colMin ([0, 1, 2] : List ℚ))) ([0, 1, 2] : List ℚ)).zip (List.map (fun w => w / ((100 : ℚ) * (1004 / 1000000000) / 1)) ([1, 1, 1] : List ℚ)))) = p.2)) ∧
      (absErrList (List.map (fun c => interp1 c (sortByCoord ((List.map (fun c => (c - colMin ([0, 1, 2] : List ℚ)) / (colMax ([0, 1, 2] : List ℚ) - colMin ([0, 1, 2] : List ℚ))) ([0, 1, 2] : List ℚ)).zip (List.map (fun u => u / ((100 : ℚ) * (1004 / 1000000000) / 1)) ([2, -1, 3] : List ℚ))))) GHIA_RE100.y) GHIA_RE100.u).length = 17 ∧
      r.U_max ∈ (absErrList (List.map (fun c => interp1 c (sortByCoord ((List.map (fun c => (c - colMin ([0, 1, 2] : List ℚ)) / (colMax ([0, 1, 2] : List ℚ) - colMin ([0, 1, 2] : List ℚ))) ([0, 1, 2] : List ℚ)).zip (List.map (fun u => u / ((100 : ℚ) * (1004 / 1000000000) / 1)) ([2, -1, 3] : List ℚ))))) GHIA_RE100.y) GHIA_RE100.u) ∧
      (∀ e ∈ (absErrList (List.map (fun c => interp1 c (sortByCoord ((List.map (fun c => (c - colMin ([0, 1, 2] : List ℚ)) / (colMax ([0, 1, 2] : List ℚ) - colMin ([0, 1, 2] : List ℚ))) ([0, 1, 2] : List ℚ)).zip (List.map (fun u => u / ((100 : ℚ) * (1004 / 1000000000) / 1)) ([2, -1, 3] : List ℚ))))) GHIA_RE100.y) GHIA_RE100.u), e ≤ r.U_max) ∧
      r.U_mean = (absErrList (List.map (fun c => interp1 c (sortByCoord ((List.map (fun c => (c - colMin ([0, 1, 2] : List ℚ)) / (colMax ([0, 1, 2] : List ℚ) - colMin ([0, 1, 2] : List ℚ))) ([0, 1, 2] : List ℚ)).zip (List.map (fun u => u / ((100 : ℚ) * (1004 / 1000000000) / 1)) ([2, -1, 3] : List ℚ))))) GHIA_RE100.y) GHIA_RE100.u).sum / 17 ∧
      Real.sqrt ((r.U_L2sq : ℚ) : ℝ) ^ 2 =
        ((((absErrList (List.map (fun c => interp1 c (sortByCoord ((List.map (fun c => (c - colMin ([0, 1, 2] : List ℚ)) / (colMax ([0, 1, 2] : List ℚ) - colMin ([0, 1, 2] : List ℚ))) ([0, 1, 2] : List ℚ)).zip (List.map (fun u => u / ((100 : ℚ) * (1004 / 1000000000) / 1)) ([2, -1, 3] : List ℚ))))) GHIA_RE100.y) GHIA_RE100.u).map (fun e => e ^ 2)).sum / 17 : ℚ) : ℝ) ∧
      0 ≤ Real.sqrt ((r.U_L2sq : ℚ) : ℝ) ∧
      (absErrList (List.map (fun c => interp1 c (sortByCoord ((List.map (fun c => (c - colMin ([0, 1, 2] : List ℚ)) / (colMax ([0, 1, 2] : List ℚ) - colMin ([0, 1, 2] : List ℚ))) ([0, 1, 2] : List ℚ)).zip (List.map (fun w => w / ((100 : ℚ) * (1004 / 1000000000) / 1)) ([1, 1, 1] : List ℚ))))) GHIA_RE100.x) GHIA_RE100.v).length = 17 ∧
      r.V_max ∈ (absErrList (List.map (fun c => interp1 c (sortByCoord ((List.map (fun c => (c - colMin ([0, 1, 2] : List ℚ)) / (colMax ([0, 1, 2] : List ℚ) - colMin ([0, 1, 2] : List ℚ))) ([0, 1, 2] : List ℚ)).zip (List.map (fun w => w / ((100 : ℚ) * (1004 / 1000000000) / 1)) ([1, 1, 1] : List ℚ))))) GHIA_RE100.x) GHIA_RE100.v) ∧
      (∀ e ∈ (absErrList (List.map (fun c => interp1 c (sortByCoord ((List.map (fun c => (c - colMin ([0, 1, 2] : List ℚ)) / (colMax ([0, 1, 2] : List ℚ) - colMin ([0, 1, 2] : List ℚ))) ([0, 1, 2] : List ℚ)).zip (List.map (fun w => w / ((100 : ℚ) * (1004 / 1000000000) / 1)) ([1, 1, 1] : List ℚ))))) GHIA_RE100.x) GHIA_RE100.v), e ≤ r.V_max) ∧
      r.V_mean = (absErrList (List.map (fun c => interp1 c (sortByCoord ((List.map (fun c => (c - colMin ([0, 1, 2] : List ℚ)) / (colMax ([0, 1, 2] : List ℚ) - colMin ([0, 1, 2] : List ℚ))) ([0, 1, 2] : List ℚ)).zip (List.map (fun w => w / ((100 : ℚ) * (1004 / 1000000000) / 1)) ([1, 1, 1] : List ℚ))))) GHIA_RE100.x) GHIA_RE100.v).sum / 17 ∧
      Real.sqrt ((r.V_L2sq : ℚ) : ℝ) ^ 2 =
        ((((absErrList (List.map (fun c => interp1 c (sortByCoord ((List.map (fun c => (c - colMin ([0, 1, 2] : List ℚ)) / (colMax ([0, 1, 2] : List ℚ) - colMin ([0, 1, 2] : List ℚ))) ([0, 1, 2] : List ℚ)).zip (List.map (fun w => w / ((100 : ℚ) * (1004 / 1000000000) / 1)) ([1, 1, 1] : List ℚ))))) GHIA_RE100.x) GHIA_RE100.v).map (fun e => e ^ 2)).sum / 17 : ℚ) : ℝ) ∧
      0 ≤ Real.sqrt ((r.V_L2sq : ℚ) : ℝ)) :=
  ⟨⟨rfl, rfl, rfl, rfl, rfl, rfl, rfl, rfl⟩,
   C4_benchmark_errors dfVCenterW dfHCenterW 100 GHIA_RE100
     [0, 1, 2] [2, -1, 3] [0, 1, 2] [1, 1, 1]
     rfl rfl rfl rfl rfl rfl rfl rfl⟩
